import Mathlib

/-!
# CRTC assignment and default layouts of `meta-monitor-config-manager.c`

A shallow embedding of `src/backends/meta-monitor-config-manager.c`.

* Pointers to inventory objects (`MetaCrtc *`, `MetaOutput *`, `MetaMonitor *`,
  `MetaMonitorMode *`, `MetaCrtcMode *`) are handles (`Nat`); pointer equality is
  equality of handles.  What the C code reads through such a pointer, or obtains
  from an accessor of `meta-monitor-manager-private.h`, is a field of
  `MetaMonitorManager`, the read-only inventory.
* `GList` and `GPtrArray` are `List`; `g_list_append` and `g_ptr_array_add` add at
  the end.
* A `gboolean` result with a `GError **` becomes `Except AssignError _`; the arrays
  built so far are dropped with the error, as `g_ptr_array_free` does.
* `int` arithmetic is `Int` arithmetic reduced to 32 bits two's complement
  (`int_wrap`).
* A `NULL` monitor handed to the generators is dereferenced by the C code; the
  generators return `none` there.
-/

namespace Mutter

/-! ## Data model -/

/-- Handle of a `MetaCrtc`. -/
abbrev MetaCrtc := Nat

/-- Handle of a `MetaOutput`. -/
abbrev MetaOutput := Nat

/-- Handle of a `MetaMonitor`. -/
abbrev MetaMonitor := Nat

/-- Handle of a `MetaMonitorMode`. -/
abbrev MetaMonitorMode := Nat

/-- Handle of a `MetaCrtcMode`, the hardware mode. -/
abbrev MetaCrtcMode := Nat

/-- Identification of a physical monitor (`MetaMonitorSpec`). -/
structure MetaMonitorSpec where
  connector : String
  vendor : String
  product : String
  serial : String
deriving DecidableEq, Repr

/-- Identification of a mode (`MetaMonitorModeSpec`); `refresh_rate` stands for the
bits of the C `float`, which the code only copies. -/
structure MetaMonitorModeSpec where
  width : Int
  height : Int
  refresh_rate : Nat
deriving DecidableEq, Repr

/-- The C `MetaRectangle`. -/
structure MetaRectangle where
  x : Int
  y : Int
  width : Int
  height : Int
deriving DecidableEq, Repr

/-- The C `MetaMonitorConfig`: this monitor shall run at this mode. -/
structure MetaMonitorConfig where
  monitor_spec : MetaMonitorSpec
  mode_spec : MetaMonitorModeSpec
deriving DecidableEq, Repr

/-- The C `MetaLogicalMonitorConfig`. -/
structure MetaLogicalMonitorConfig where
  layout : MetaRectangle
  monitor_configs : List MetaMonitorConfig
  is_primary : Bool
  is_presentation : Bool
deriving DecidableEq, Repr

/-- The C `MetaMonitorsConfig`. -/
structure MetaMonitorsConfig where
  logical_monitor_configs : List MetaLogicalMonitorConfig
deriving DecidableEq, Repr

/-- The C `MetaMonitorCrtcMode`: one (output, hardware mode) pair of a monitor mode,
with the offset of the output inside the monitor. -/
structure MetaMonitorCrtcMode where
  output : MetaOutput
  crtc_mode : MetaCrtcMode
  x : Int
  y : Int
deriving DecidableEq, Repr

/-- The C `MetaMonitorTransform`. -/
inductive MetaMonitorTransform where
  | NORMAL
  | ROT_90
  | ROT_180
  | ROT_270
  | FLIPPED
  | FLIPPED_90
  | FLIPPED_180
  | FLIPPED_270
deriving DecidableEq, Repr

/-- The C `MetaCrtcInfo`, one CRTC assignment of the result. -/
structure MetaCrtcInfo where
  crtc : MetaCrtc
  mode : MetaCrtcMode
  x : Int
  y : Int
  transform : MetaMonitorTransform
  outputs : List MetaOutput
deriving DecidableEq, Repr

/-- The C `MetaOutputInfo`, one output assignment of the result. -/
structure MetaOutputInfo where
  output : MetaOutput
  is_primary : Bool
  is_presentation : Bool
  is_underscanning : Bool
deriving DecidableEq, Repr

/-- The inventory behind a `MetaMonitorManager *`: every accessor of
`meta-monitor-manager-private.h` that the file calls, and the fields it reads
through inventory pointers. -/
structure MetaMonitorManager where
  /-- The C `meta_monitor_manager_get_monitors` -/
  get_monitors : List MetaMonitor
  /-- The C `meta_monitor_manager_get_monitor_from_spec`; `none` is `NULL` -/
  get_monitor_from_spec : MetaMonitorSpec → Option MetaMonitor
  /-- The C `meta_monitor_manager_get_primary_monitor`; `none` is `NULL` -/
  get_primary_monitor : Option MetaMonitor
  /-- The C `meta_monitor_manager_get_laptop_panel`; `none` is `NULL` -/
  get_laptop_panel : Option MetaMonitor
  /-- The C `meta_monitor_get_spec` -/
  get_spec : MetaMonitor → MetaMonitorSpec
  /-- The C `meta_monitor_get_preferred_mode` -/
  get_preferred_mode : MetaMonitor → MetaMonitorMode
  /-- The C `meta_monitor_get_mode_from_spec`; `none` is `NULL` -/
  get_mode_from_spec : MetaMonitor → MetaMonitorModeSpec → Option MetaMonitorMode
  /-- The C `meta_monitor_get_main_output` -/
  get_main_output : MetaMonitor → MetaOutput
  /-- The C `meta_monitor_mode_get_resolution`, as (width, height) -/
  mode_get_resolution : MetaMonitorMode → Int × Int
  /-- The C `meta_monitor_mode_get_spec` -/
  mode_get_spec : MetaMonitorMode → MetaMonitorModeSpec
  /-- the (output, hardware mode) pairs that `meta_monitor_mode_foreach_crtc`
  enumerates for a mode of a monitor, in enumeration order -/
  mode_crtc_modes : MetaMonitor → MetaMonitorMode → List MetaMonitorCrtcMode
  /-- The C `output->possible_crtcs[0 .. output->n_possible_crtcs - 1]` -/
  possible_crtcs : MetaOutput → List MetaCrtc
  /-- The C `output->is_underscanning` -/
  is_underscanning : MetaOutput → Bool

/-- The C `struct _MetaMonitorConfigManager`. -/
structure MetaMonitorConfigManager where
  monitor_manager : MetaMonitorManager
  current_config : Option MetaMonitorsConfig

/-- The three `g_set_error` calls of the assignment, told apart by their message;
each carries what the message prints. -/
inductive AssignError where
  /-- Message "Configured monitor '%s %s' not found" -/
  | MonitorNotFound (monitor_spec : MetaMonitorSpec)
  /-- Message "Invalid mode %dx%d (%f) for monitor '%s %s'" -/
  | InvalidMode (mode_spec : MetaMonitorModeSpec) (monitor_spec : MetaMonitorSpec)
  /-- Message "No available CRTC for monitor '%s %s' not found" -/
  | NoAvailableCrtc (monitor_spec : MetaMonitorSpec)
deriving DecidableEq, Repr

/-! ## C `int` arithmetic -/

/-- Reduction of an integer to the 32-bit two's complement range of a C `int`. -/
def int_wrap (v : Int) : Int :=
  (v + 2147483648) % 4294967296 - 2147483648

/-- C `+` on `int`. -/
def int_add (a b : Int) : Int := int_wrap (a + b)

/-- C `*` on `int`. -/
def int_mul (a b : Int) : Int := int_wrap (a * b)

/-- The value is one a C `int` can hold. -/
def is_int (v : Int) : Prop := -2147483648 ≤ v ∧ v < 2147483648

instance (v : Int) : Decidable (is_int v) := by
  unfold is_int; infer_instance

/-! ## The CRTC assignment engine -/

/-- The C `is_crtc_assigned`: is `crtc` the CRTC of one of `crtc_infos`? -/
def is_crtc_assigned (crtc : MetaCrtc) : List MetaCrtcInfo → Bool
  | [] => false
  | assigned_crtc_info :: rest =>
    if assigned_crtc_info.crtc = crtc then true else is_crtc_assigned crtc rest

/-- The loop of `find_unassigned_crtc` over what is left of `possible_crtcs`. -/
def find_unassigned_crtc_loop : List MetaCrtc → List MetaCrtcInfo → Option MetaCrtc
  | [], _ => none
  | crtc :: rest, crtc_infos =>
    if is_crtc_assigned crtc crtc_infos then find_unassigned_crtc_loop rest crtc_infos
    else some crtc

/-- The C `find_unassigned_crtc`. -/
def find_unassigned_crtc (manager : MetaMonitorManager) (output : MetaOutput)
    (crtc_infos : List MetaCrtcInfo) : Option MetaCrtc :=
  find_unassigned_crtc_loop (manager.possible_crtcs output) crtc_infos

/-- The C `MonitorAssignmentData`.  `monitor_config` is the position of the
`MetaMonitorConfig` in `logical_monitor_config.monitor_configs`: every node of that
list owns its own `MetaMonitorConfig`, so the pointer read from a node equals the
pointer of the head node exactly at position 0. -/
structure MonitorAssignmentData where
  logical_monitor_config : MetaLogicalMonitorConfig
  monitor_config : Nat
  crtc_infos : List MetaCrtcInfo
  output_infos : List MetaOutputInfo
deriving DecidableEq, Repr

/-- The C `assign_monitor_crtc`, the callback of the enumeration: the two arrays
behind `data` grow by one entry each, or the call fails and leaves an error. -/
def assign_monitor_crtc (manager : MetaMonitorManager) (monitor : MetaMonitor)
    (_mode : MetaMonitorMode) (monitor_crtc_mode : MetaMonitorCrtcMode)
    (data : MonitorAssignmentData) : Except AssignError MonitorAssignmentData :=
  let output := monitor_crtc_mode.output
  match find_unassigned_crtc manager output data.crtc_infos with
  | none => Except.error (AssignError.NoAvailableCrtc (manager.get_spec monitor))
  | some crtc =>
    let crtc_info : MetaCrtcInfo :=
      { crtc := crtc
        mode := monitor_crtc_mode.crtc_mode
        x := int_add monitor_crtc_mode.x data.logical_monitor_config.layout.x
        y := int_add monitor_crtc_mode.y data.logical_monitor_config.layout.y
        transform := MetaMonitorTransform.NORMAL
        outputs := [output] }
    let assign_output_as_primary : Bool :=
      if data.monitor_config = 0 ∧ manager.get_main_output monitor = output then true
      else false
    let assign_output_as_presentation : Bool :=
      if data.logical_monitor_config.is_presentation then true else false
    let output_info : MetaOutputInfo :=
      { output := output
        is_primary := assign_output_as_primary
        is_presentation := assign_output_as_presentation
        is_underscanning := manager.is_underscanning output }
    Except.ok
      { data with
        crtc_infos := data.crtc_infos ++ [crtc_info]
        output_infos := data.output_infos ++ [output_info] }

/-- The enumeration of `meta_monitor_mode_foreach_crtc` over what is left of the
(output, hardware mode) pairs: the first failing call of `func` ends it. -/
def foreach_crtc_loop (func : MetaMonitorCrtcMode → MonitorAssignmentData →
      Except AssignError MonitorAssignmentData) :
    List MetaMonitorCrtcMode → MonitorAssignmentData →
      Except AssignError MonitorAssignmentData
  | [], data => Except.ok data
  | monitor_crtc_mode :: rest, data =>
    match func monitor_crtc_mode data with
    | Except.error e => Except.error e
    | Except.ok data1 => foreach_crtc_loop func rest data1

/-- Modelled from the spec: `meta_monitor_mode_foreach_crtc` of `meta-monitor.c`,
which is not in this file.  It "invokes callback once per (output, crtc_mode) pair
the mode requires; callback returns success/failure, and failure aborts the
enumeration and propagates as the Engine's error". -/
def meta_monitor_mode_foreach_crtc (manager : MetaMonitorManager) (monitor : MetaMonitor)
    (mode : MetaMonitorMode)
    (func : MetaMonitor → MetaMonitorMode → MetaMonitorCrtcMode → MonitorAssignmentData →
      Except AssignError MonitorAssignmentData)
    (data : MonitorAssignmentData) : Except AssignError MonitorAssignmentData :=
  foreach_crtc_loop (func monitor mode) (manager.mode_crtc_modes monitor mode) data

/-- The two arrays `crtc_infos` and `output_infos` that the walk fills. -/
abbrev AssignArrays := List MetaCrtcInfo × List MetaOutputInfo

/-- The C `assign_monitor_crtcs`; `monitor_config_pos` is the position of
`monitor_config` in the list of `logical_monitor_config`. -/
def assign_monitor_crtcs (manager : MetaMonitorManager)
    (logical_monitor_config : MetaLogicalMonitorConfig)
    (monitor_config_pos : Nat) (monitor_config : MetaMonitorConfig)
    (arrays : AssignArrays) : Except AssignError AssignArrays :=
  let monitor_spec := monitor_config.monitor_spec
  let monitor_mode_spec := monitor_config.mode_spec
  match manager.get_monitor_from_spec monitor_spec with
  | none => Except.error (AssignError.MonitorNotFound monitor_spec)
  | some monitor =>
    match manager.get_mode_from_spec monitor monitor_mode_spec with
    | none => Except.error (AssignError.InvalidMode monitor_mode_spec monitor_spec)
    | some monitor_mode =>
      let data : MonitorAssignmentData :=
        { logical_monitor_config := logical_monitor_config
          monitor_config := monitor_config_pos
          crtc_infos := arrays.1
          output_infos := arrays.2 }
      match meta_monitor_mode_foreach_crtc manager monitor monitor_mode
          (assign_monitor_crtc manager) data with
      | Except.error e => Except.error e
      | Except.ok data1 => Except.ok (data1.crtc_infos, data1.output_infos)

/-- The loop of `assign_logical_monitor_crtcs` over what is left of
`monitor_configs`, the next node being at position `pos`. -/
def assign_logical_monitor_crtcs_loop (manager : MetaMonitorManager)
    (logical_monitor_config : MetaLogicalMonitorConfig) :
    Nat → List MetaMonitorConfig → AssignArrays → Except AssignError AssignArrays
  | _, [], arrays => Except.ok arrays
  | pos, monitor_config :: rest, arrays =>
    match assign_monitor_crtcs manager logical_monitor_config pos monitor_config arrays with
    | Except.error e => Except.error e
    | Except.ok arrays1 =>
      assign_logical_monitor_crtcs_loop manager logical_monitor_config (pos + 1) rest arrays1

/-- The C `assign_logical_monitor_crtcs`. -/
def assign_logical_monitor_crtcs (manager : MetaMonitorManager)
    (logical_monitor_config : MetaLogicalMonitorConfig)
    (arrays : AssignArrays) : Except AssignError AssignArrays :=
  assign_logical_monitor_crtcs_loop manager logical_monitor_config 0
    logical_monitor_config.monitor_configs arrays

/-- The loop of `meta_monitor_config_manager_assign` over what is left of
`logical_monitor_configs`. -/
def assign_loop (manager : MetaMonitorManager) :
    List MetaLogicalMonitorConfig → AssignArrays → Except AssignError AssignArrays
  | [], arrays => Except.ok arrays
  | logical_monitor_config :: rest, arrays =>
    match assign_logical_monitor_crtcs manager logical_monitor_config arrays with
    | Except.error e => Except.error e
    | Except.ok arrays1 => assign_loop manager rest arrays1

/-- The C `meta_monitor_config_manager_assign`: `Except.ok (crtc_infos, output_infos)`
is `TRUE` with the two out-parameters set; `Except.error e` is `FALSE` with `*error`
set, both arrays freed and the out-parameters untouched. -/
def meta_monitor_config_manager_assign (manager : MetaMonitorManager)
    (config : MetaMonitorsConfig) : Except AssignError AssignArrays :=
  assign_loop manager config.logical_monitor_configs ([], [])

/-- The CrtcAssignment entries a call hands to its caller: none on failure. -/
def returned_crtc_infos : Except AssignError AssignArrays → List MetaCrtcInfo
  | Except.ok arrays => arrays.1
  | Except.error _ => []

/-- The OutputAssignment entries a call hands to its caller: none on failure. -/
def returned_output_infos : Except AssignError AssignArrays → List MetaOutputInfo
  | Except.ok arrays => arrays.2
  | Except.error _ => []

/-! ## The default layout generators -/

/-- The area `width * height` of the preferred mode of `monitor`, as the C `int`
product computed in `find_monitor_with_highest_preferred_resolution`. -/
def preferred_area (manager : MetaMonitorManager) (monitor : MetaMonitor) : Int :=
  let mode := manager.get_preferred_mode monitor
  let (width, height) := manager.mode_get_resolution mode
  int_mul width height

/-- The loop of `find_monitor_with_highest_preferred_resolution` over what is left
of the monitors, with the current `largest_area` and `largest_monitor`. -/
def find_monitor_with_highest_preferred_resolution_loop (manager : MetaMonitorManager) :
    List MetaMonitor → Int → Option MetaMonitor → Option MetaMonitor
  | [], _, largest_monitor => largest_monitor
  | monitor :: rest, largest_area, largest_monitor =>
    let area := preferred_area manager monitor
    if area > largest_area then
      find_monitor_with_highest_preferred_resolution_loop manager rest area (some monitor)
    else
      find_monitor_with_highest_preferred_resolution_loop manager rest largest_area
        largest_monitor

/-- The C `find_monitor_with_highest_preferred_resolution`; `none` is `NULL`. -/
def find_monitor_with_highest_preferred_resolution (manager : MetaMonitorManager) :
    Option MetaMonitor :=
  find_monitor_with_highest_preferred_resolution_loop manager manager.get_monitors 0 none

/-- The C `find_primary_monitor`; `none` is `NULL`. -/
def find_primary_monitor (manager : MetaMonitorManager) : Option MetaMonitor :=
  match manager.get_primary_monitor with
  | some monitor => some monitor
  | none =>
    match manager.get_laptop_panel with
    | some monitor => some monitor
    | none => find_monitor_with_highest_preferred_resolution manager

/-- The C `create_monitor_config`: the two specs are copied by value. -/
def create_monitor_config (manager : MetaMonitorManager) (monitor : MetaMonitor)
    (mode : MetaMonitorMode) : MetaMonitorConfig :=
  { monitor_spec := manager.get_spec monitor
    mode_spec := manager.mode_get_spec mode }

/-- The C `create_preferred_logical_monitor_config`; the fields the compound literal
does not name are zero. -/
def create_preferred_logical_monitor_config (manager : MetaMonitorManager)
    (monitor : MetaMonitor) (x y : Int) : MetaLogicalMonitorConfig :=
  let mode := manager.get_preferred_mode monitor
  let (width, height) := manager.mode_get_resolution mode
  let monitor_config := create_monitor_config manager monitor mode
  { layout := { x := x, y := y, width := width, height := height }
    monitor_configs := [] ++ [monitor_config]
    is_primary := false
    is_presentation := false }

/-- The loop of `meta_monitor_config_manager_create_linear` over what is left of the
monitors, with the current `x` and the list built so far. -/
def create_linear_loop (manager : MetaMonitorManager) (primary_monitor : MetaMonitor) :
    List MetaMonitor → Int → List MetaLogicalMonitorConfig → List MetaLogicalMonitorConfig
  | [], _, logical_monitor_configs => logical_monitor_configs
  | monitor :: rest, x, logical_monitor_configs =>
    if monitor = primary_monitor then
      create_linear_loop manager primary_monitor rest x logical_monitor_configs
    else
      let logical_monitor_config :=
        create_preferred_logical_monitor_config manager monitor x 0
      create_linear_loop manager primary_monitor rest
        (int_add x logical_monitor_config.layout.width)
        (logical_monitor_configs ++ [logical_monitor_config])

/-- The C `meta_monitor_config_manager_create_linear`.  With no primary monitor
(`NULL`) the C code dereferences it in `meta_monitor_get_preferred_mode`; no config
is returned then. -/
def meta_monitor_config_manager_create_linear (config_manager : MetaMonitorConfigManager) :
    Option MetaMonitorsConfig :=
  let monitor_manager := config_manager.monitor_manager
  match find_primary_monitor monitor_manager with
  | none => none
  | some primary_monitor =>
    let primary_logical_monitor_config : MetaLogicalMonitorConfig :=
      { create_preferred_logical_monitor_config monitor_manager primary_monitor 0 0 with
        is_primary := true }
    let x := primary_logical_monitor_config.layout.width
    some
      { logical_monitor_configs :=
          create_linear_loop monitor_manager primary_monitor monitor_manager.get_monitors x
            ([] ++ [primary_logical_monitor_config]) }

/-- The C `meta_monitor_config_manager_create_fallback`.  With no primary monitor
(`NULL`) the C code dereferences it; no config is returned then. -/
def meta_monitor_config_manager_create_fallback (config_manager : MetaMonitorConfigManager) :
    Option MetaMonitorsConfig :=
  let monitor_manager := config_manager.monitor_manager
  match find_primary_monitor monitor_manager with
  | none => none
  | some primary_monitor =>
    let primary_logical_monitor_config : MetaLogicalMonitorConfig :=
      { create_preferred_logical_monitor_config monitor_manager primary_monitor 0 0 with
        is_primary := true }
    some { logical_monitor_configs := [] ++ [primary_logical_monitor_config] }

/-- The C `meta_monitor_config_manager_set_current`. -/
def meta_monitor_config_manager_set_current (config_manager : MetaMonitorConfigManager)
    (config : MetaMonitorsConfig) : MetaMonitorConfigManager :=
  { config_manager with current_config := some config }

/-- The C `meta_monitor_config_manager_get_current`. -/
def meta_monitor_config_manager_get_current (config_manager : MetaMonitorConfigManager) :
    Option MetaMonitorsConfig :=
  config_manager.current_config

/-! ## The walk of the specification, step by step

The specification describes the assignment as one walk over the config: logical
monitor configs in order, monitor configs in order within each, and for one monitor
config the monitor lookup, then the mode lookup, then one step per (output, hardware
mode) pair.  The definitions below follow that description; the theorems compare
them with the nested loops above. -/

/-- One step of the walk. -/
inductive WalkStep where
  /-- step 1: resolve `monitor_spec` against the inventory -/
  | resolve_monitor (monitor_config : MetaMonitorConfig)
  /-- step 2: resolve `mode_spec` against the modes of the resolved monitor -/
  | resolve_mode (monitor : MetaMonitor) (monitor_config : MetaMonitorConfig)
  /-- steps 3 to 7: claim a CRTC for one (output, hardware mode) pair and record the
  two assignment entries -/
  | map_crtc (logical_monitor_config : MetaLogicalMonitorConfig) (monitor_config_pos : Nat)
      (monitor : MetaMonitor) (mode : MetaMonitorMode)
      (monitor_crtc_mode : MetaMonitorCrtcMode)
deriving DecidableEq, Repr

/-- The steps of one monitor config: monitor lookup, then mode lookup, then the pairs
of the resolved mode in enumeration order.  What a failed lookup would have
determined is not listed. -/
def monitor_config_steps (manager : MetaMonitorManager)
    (logical_monitor_config : MetaLogicalMonitorConfig) (monitor_config_pos : Nat)
    (monitor_config : MetaMonitorConfig) : List WalkStep :=
  WalkStep.resolve_monitor monitor_config ::
    match manager.get_monitor_from_spec monitor_config.monitor_spec with
    | none => []
    | some monitor =>
      WalkStep.resolve_mode monitor monitor_config ::
        match manager.get_mode_from_spec monitor monitor_config.mode_spec with
        | none => []
        | some mode =>
          (manager.mode_crtc_modes monitor mode).map
            (WalkStep.map_crtc logical_monitor_config monitor_config_pos monitor mode)

/-- The steps of the monitor configs of one logical monitor config, the next one
being at position `pos`. -/
def logical_monitor_steps (manager : MetaMonitorManager)
    (logical_monitor_config : MetaLogicalMonitorConfig) :
    Nat → List MetaMonitorConfig → List WalkStep
  | _, [] => []
  | pos, monitor_config :: rest =>
    monitor_config_steps manager logical_monitor_config pos monitor_config ++
      logical_monitor_steps manager logical_monitor_config (pos + 1) rest

/-- The steps of the whole walk, in walk order. -/
def walk_steps (manager : MetaMonitorManager) : List MetaLogicalMonitorConfig → List WalkStep
  | [] => []
  | logical_monitor_config :: rest =>
    logical_monitor_steps manager logical_monitor_config 0
        logical_monitor_config.monitor_configs ++
      walk_steps manager rest

/-- What one step does to the result so far: a lookup step fails with its error or
leaves the result alone, a mapping step is one call of `assign_monitor_crtc`. -/
def step_exec (manager : MetaMonitorManager) :
    WalkStep → AssignArrays → Except AssignError AssignArrays
  | WalkStep.resolve_monitor monitor_config, arrays =>
    match manager.get_monitor_from_spec monitor_config.monitor_spec with
    | none => Except.error (AssignError.MonitorNotFound monitor_config.monitor_spec)
    | some _ => Except.ok arrays
  | WalkStep.resolve_mode monitor monitor_config, arrays =>
    match manager.get_mode_from_spec monitor monitor_config.mode_spec with
    | none =>
      Except.error
        (AssignError.InvalidMode monitor_config.mode_spec monitor_config.monitor_spec)
    | some _ => Except.ok arrays
  | WalkStep.map_crtc logical_monitor_config monitor_config_pos monitor mode
      monitor_crtc_mode, arrays =>
    match assign_monitor_crtc manager monitor mode monitor_crtc_mode
        { logical_monitor_config := logical_monitor_config
          monitor_config := monitor_config_pos
          crtc_infos := arrays.1
          output_infos := arrays.2 } with
    | Except.error e => Except.error e
    | Except.ok data => Except.ok (data.crtc_infos, data.output_infos)

/-- The walk: the steps run in order, the first failing step ends it with its error
and nothing else. -/
def run_walk (manager : MetaMonitorManager) :
    List WalkStep → AssignArrays → Except AssignError AssignArrays
  | [], arrays => Except.ok arrays
  | step :: rest, arrays =>
    match step_exec manager step arrays with
    | Except.error e => Except.error e
    | Except.ok arrays1 => run_walk manager rest arrays1

/-- The error with which a step fails when it fails: `MonitorNotFound` for the monitor
lookup, `InvalidMode` for the mode lookup, `NoAvailableCrtc` for a mapping. -/
def step_error (manager : MetaMonitorManager) : WalkStep → AssignError
  | WalkStep.resolve_monitor monitor_config =>
    AssignError.MonitorNotFound monitor_config.monitor_spec
  | WalkStep.resolve_mode _ monitor_config =>
    AssignError.InvalidMode monitor_config.mode_spec monitor_config.monitor_spec
  | WalkStep.map_crtc _ _ monitor _ _ =>
    AssignError.NoAvailableCrtc (manager.get_spec monitor)

/-- The output a mapping step targets; a lookup step targets none. -/
def step_output : WalkStep → Option MetaOutput
  | WalkStep.map_crtc _ _ _ _ monitor_crtc_mode => some monitor_crtc_mode.output
  | _ => none

/-- The outputs targeted by the mapping steps of a list of steps, in order. -/
def mapped_outputs (steps : List WalkStep) : List MetaOutput :=
  steps.filterMap step_output

/-- Both lookups of a monitor config succeed: its `monitor_spec` resolves to a monitor
and its `mode_spec` to a mode of that monitor. -/
def monitor_config_resolves (manager : MetaMonitorManager)
    (monitor_config : MetaMonitorConfig) : Bool :=
  match manager.get_monitor_from_spec monitor_config.monitor_spec with
  | none => false
  | some monitor => (manager.get_mode_from_spec monitor monitor_config.mode_spec).isSome

/-- All monitor specs and mode specs of the config resolve. -/
def config_resolves (manager : MetaMonitorManager) (config : MetaMonitorsConfig) : Bool :=
  config.logical_monitor_configs.all
    (fun logical_monitor_config =>
      logical_monitor_config.monitor_configs.all (monitor_config_resolves manager))

/-- A lookup step finds what it looks up; a mapping step looks nothing up. -/
def step_resolves (manager : MetaMonitorManager) : WalkStep → Bool
  | WalkStep.resolve_monitor monitor_config =>
    (manager.get_monitor_from_spec monitor_config.monitor_spec).isSome
  | WalkStep.resolve_mode monitor monitor_config =>
    (manager.get_mode_from_spec monitor monitor_config.mode_spec).isSome
  | WalkStep.map_crtc _ _ _ _ _ => true

/-! ## The linear layout of the specification -/

/-- Preferred width of a monitor. -/
def preferred_width (manager : MetaMonitorManager) (monitor : MetaMonitor) : Int :=
  (manager.mode_get_resolution (manager.get_preferred_mode monitor)).1

/-- Preferred height of a monitor. -/
def preferred_height (manager : MetaMonitorManager) (monitor : MetaMonitor) : Int :=
  (manager.mode_get_resolution (manager.get_preferred_mode monitor)).2

/-- Side by side placement of `monitors` from offset `x` on: each at `y = 0` with its
preferred mode, the next one to the right of it. -/
def linear_layout (manager : MetaMonitorManager) :
    Int → List MetaMonitor → List MetaLogicalMonitorConfig
  | _, [] => []
  | x, monitor :: rest =>
    create_preferred_logical_monitor_config manager monitor x 0 ::
      linear_layout manager (int_add x (preferred_width manager monitor)) rest

/-- The monitors of the inventory other than `primary_monitor`, in inventory order. -/
def other_monitors (manager : MetaMonitorManager) (primary_monitor : MetaMonitor) :
    List MetaMonitor :=
  manager.get_monitors.filter (fun monitor => decide (monitor ≠ primary_monitor))

/-- The sum of the layout widths of the first `k` logical monitor configs of a list. -/
def widths_before (logical_monitor_configs : List MetaLogicalMonitorConfig) (k : Nat) : Int :=
  ((logical_monitor_configs.take k).map
    (fun logical_monitor_config => logical_monitor_config.layout.width)).sum

/-! ## Concrete inventories and configs -/

/-- Spec of the laptop panel PanelA. -/
def spec_PanelA : MetaMonitorSpec :=
  { connector := "eDP-1", vendor := "AAA", product := "PanelA", serial := "0x1" }

/-- Spec of the external monitor ExternalB. -/
def spec_ExternalB : MetaMonitorSpec :=
  { connector := "DP-1", vendor := "BBB", product := "ExternalB", serial := "0x2" }

/-- Spec of a monitor that is not connected. -/
def spec_Unplugged : MetaMonitorSpec :=
  { connector := "HDMI-1", vendor := "CCC", product := "Unplugged", serial := "0x3" }

/-- Inventory of the scenario of the specification: PanelA (monitor 1, laptop panel,
preferred 1920x1080, output 100) and ExternalB (monitor 2, preferred 2560x1440,
output 200), no reported primary; both outputs can use CRTC 1000 or 1001. -/
def laptop_and_external : MetaMonitorManager :=
  { get_monitors := [1, 2]
    get_monitor_from_spec := fun s =>
      if s = spec_PanelA then some 1 else if s = spec_ExternalB then some 2 else none
    get_primary_monitor := none
    get_laptop_panel := some 1
    get_spec := fun m => if m = 1 then spec_PanelA else spec_ExternalB
    get_preferred_mode := fun m => if m = 1 then 10 else 20
    get_mode_from_spec := fun m s =>
      if m = 1 ∧ s = ⟨1920, 1080, 60⟩ then some 10
      else if m = 2 ∧ s = ⟨2560, 1440, 60⟩ then some 20 else none
    get_main_output := fun m => if m = 1 then 100 else 200
    mode_get_resolution := fun mode => if mode = 10 then (1920, 1080) else (2560, 1440)
    mode_get_spec := fun mode => if mode = 10 then ⟨1920, 1080, 60⟩ else ⟨2560, 1440, 60⟩
    mode_crtc_modes := fun m _ =>
      if m = 1 then [{ output := 100, crtc_mode := 500, x := 0, y := 0 }]
      else [{ output := 200, crtc_mode := 600, x := 0, y := 0 }]
    possible_crtcs := fun _ => [1000, 1001]
    is_underscanning := fun _ => false }

/-- The same two monitors when every output can only use CRTC 1000. -/
def laptop_and_external_one_crtc : MetaMonitorManager :=
  { laptop_and_external with possible_crtcs := fun _ => [1000] }

/-- Inventory of a single monitor whose preferred mode is 0x0, with no reported
primary and no laptop panel. -/
def zero_area_inventory : MetaMonitorManager :=
  { laptop_and_external with
    get_monitors := [1]
    get_laptop_panel := none
    mode_get_resolution := fun _ => (0, 0) }

/-- Inventory of three monitors with preferred modes 800x600 (monitor 1), 1024x768
(monitor 2) and 1024x768 (monitor 3), with no reported primary and no laptop panel. -/
def three_monitors : MetaMonitorManager :=
  { laptop_and_external with
    get_monitors := [1, 2, 3]
    get_laptop_panel := none
    get_preferred_mode := fun m => if m = 1 then 10 else 20
    mode_get_resolution := fun mode => if mode = 10 then (800, 600) else (1024, 768) }

/-- A config manager over the inventory of PanelA and ExternalB, with no current
config. -/
def laptop_and_external_manager : MetaMonitorConfigManager :=
  { monitor_manager := laptop_and_external, current_config := none }

/-- Monitor config of PanelA at its preferred mode. -/
def config_PanelA : MetaMonitorConfig :=
  { monitor_spec := spec_PanelA, mode_spec := ⟨1920, 1080, 60⟩ }

/-- Monitor config of ExternalB at its preferred mode. -/
def config_ExternalB : MetaMonitorConfig :=
  { monitor_spec := spec_ExternalB, mode_spec := ⟨2560, 1440, 60⟩ }

/-- The linear layout of PanelA and ExternalB: PanelA primary at the origin, ExternalB
to its right. -/
def linear_PanelA_ExternalB : MetaMonitorsConfig :=
  { logical_monitor_configs :=
      [ { layout := ⟨0, 0, 1920, 1080⟩, monitor_configs := [config_PanelA],
          is_primary := true, is_presentation := false },
        { layout := ⟨1920, 0, 2560, 1440⟩, monitor_configs := [config_ExternalB],
          is_primary := false, is_presentation := false } ] }

/-- PanelA alone, in a logical monitor config that is not marked primary. -/
def only_PanelA_not_primary : MetaMonitorsConfig :=
  { logical_monitor_configs :=
      [ { layout := ⟨0, 0, 1920, 1080⟩, monitor_configs := [config_PanelA],
          is_primary := false, is_presentation := false } ] }

/-- PanelA at a mode it does not have, followed by a monitor that is not connected. -/
def bad_mode_then_unplugged : MetaMonitorsConfig :=
  { logical_monitor_configs :=
      [ { layout := ⟨0, 0, 800, 600⟩,
          monitor_configs := [{ monitor_spec := spec_PanelA, mode_spec := ⟨800, 600, 60⟩ }],
          is_primary := true, is_presentation := false },
        { layout := ⟨800, 0, 1024, 768⟩,
          monitor_configs :=
            [{ monitor_spec := spec_Unplugged, mode_spec := ⟨1024, 768, 60⟩ }],
          is_primary := false, is_presentation := false } ] }

/-- PanelA followed by a monitor that is not connected. -/
def PanelA_then_unplugged : MetaMonitorsConfig :=
  { logical_monitor_configs :=
      [ { layout := ⟨0, 0, 1920, 1080⟩, monitor_configs := [config_PanelA],
          is_primary := true, is_presentation := false },
        { layout := ⟨1920, 0, 1024, 768⟩,
          monitor_configs :=
            [{ monitor_spec := spec_Unplugged, mode_spec := ⟨1024, 768, 60⟩ }],
          is_primary := false, is_presentation := false } ] }

/-- PanelA in two logical monitor configs: its output 100 is mapped twice. -/
def PanelA_twice : MetaMonitorsConfig :=
  { logical_monitor_configs :=
      [ { layout := ⟨0, 0, 1920, 1080⟩, monitor_configs := [config_PanelA],
          is_primary := true, is_presentation := false },
        { layout := ⟨1920, 0, 1920, 1080⟩, monitor_configs := [config_PanelA],
          is_primary := false, is_presentation := false } ] }

/-- The result of assigning the linear layout of PanelA and ExternalB. -/
def assigned_PanelA_ExternalB : AssignArrays :=
  ([ { crtc := 1000, mode := 500, x := 0, y := 0,
       transform := MetaMonitorTransform.NORMAL, outputs := [100] },
     { crtc := 1001, mode := 600, x := 1920, y := 0,
       transform := MetaMonitorTransform.NORMAL, outputs := [200] } ],
   [ { output := 100, is_primary := true, is_presentation := false,
       is_underscanning := false },
     { output := 200, is_primary := true, is_presentation := false,
       is_underscanning := false } ])

/-- The result of assigning PanelA alone. -/
def assigned_only_PanelA : AssignArrays :=
  ([ { crtc := 1000, mode := 500, x := 0, y := 0,
       transform := MetaMonitorTransform.NORMAL, outputs := [100] } ],
   [ { output := 100, is_primary := true, is_presentation := false,
       is_underscanning := false } ])

/-! ## The entries of a mapping -/

/-- The CrtcAssignment recorded for the mapping of `monitor_crtc_mode` inside
`logical_monitor_config`, once `crtc` has been claimed for it. -/
def mapping_crtc_info (crtc : MetaCrtc) (logical_monitor_config : MetaLogicalMonitorConfig)
    (monitor_crtc_mode : MetaMonitorCrtcMode) : MetaCrtcInfo :=
  { crtc := crtc
    mode := monitor_crtc_mode.crtc_mode
    x := int_add monitor_crtc_mode.x logical_monitor_config.layout.x
    y := int_add monitor_crtc_mode.y logical_monitor_config.layout.y
    transform := MetaMonitorTransform.NORMAL
    outputs := [monitor_crtc_mode.output] }

/-- The OutputAssignment recorded for the mapping of `monitor_crtc_mode` of `monitor`,
the monitor of the MonitorConfig at position `monitor_config_pos` of
`logical_monitor_config`. -/
def mapping_output_info (manager : MetaMonitorManager)
    (logical_monitor_config : MetaLogicalMonitorConfig) (monitor_config_pos : Nat)
    (monitor : MetaMonitor) (monitor_crtc_mode : MetaMonitorCrtcMode) : MetaOutputInfo :=
  { output := monitor_crtc_mode.output
    is_primary :=
      decide (monitor_config_pos = 0 ∧
        manager.get_main_output monitor = monitor_crtc_mode.output)
    is_presentation := logical_monitor_config.is_presentation
    is_underscanning := manager.is_underscanning monitor_crtc_mode.output }

/-- The mapping steps of a list of steps, in order. -/
def mapping_steps (steps : List WalkStep) : List WalkStep :=
  steps.filter (fun step => (step_output step).isSome)

/-- A logical monitor config with the width and height of its layout and its
`is_primary` flag blanked. -/
def without_size_and_primary (logical_monitor_config : MetaLogicalMonitorConfig) :
    MetaLogicalMonitorConfig :=
  { logical_monitor_config with
    layout := { logical_monitor_config.layout with width := 0, height := 0 }
    is_primary := false }

/-- A step with the logical monitor config of a mapping blanked in the same way. -/
def step_without_size_and_primary : WalkStep → WalkStep
  | WalkStep.map_crtc logical_monitor_config monitor_config_pos monitor mode
      monitor_crtc_mode =>
    WalkStep.map_crtc (without_size_and_primary logical_monitor_config) monitor_config_pos
      monitor mode monitor_crtc_mode
  | step => step

/-- Two rectangles do not overlap: one ends before the other begins, on the x axis or on
the y axis. -/
def rectangles_disjoint (a b : MetaRectangle) : Prop :=
  a.x + a.width ≤ b.x ∨ b.x + b.width ≤ a.x ∨ a.y + a.height ≤ b.y ∨ b.y + b.height ≤ a.y

/-- PanelA and ExternalB when output 100 of PanelA can use CRTC 1000 or 1001 and output
200 of ExternalB can only use CRTC 1000. -/
def first_fit_trap : MetaMonitorManager :=
  { laptop_and_external with
    possible_crtcs := fun output => if output = 100 then [1000, 1001] else [1000] }

/-- The result of assigning PanelA twice when two CRTCs are free. -/
def assigned_PanelA_twice : AssignArrays :=
  ([ { crtc := 1000, mode := 500, x := 0, y := 0,
       transform := MetaMonitorTransform.NORMAL, outputs := [100] },
     { crtc := 1001, mode := 500, x := 1920, y := 0,
       transform := MetaMonitorTransform.NORMAL, outputs := [100] } ],
   [ { output := 100, is_primary := true, is_presentation := false,
       is_underscanning := false },
     { output := 100, is_primary := true, is_presentation := false,
       is_underscanning := false } ])

/-- PanelA and ExternalB when output 200 of ExternalB underscans. -/
def underscanning_external : MetaMonitorManager :=
  { laptop_and_external with is_underscanning := fun output => decide (output = 200) }

/-- PanelA and ExternalB mirrored in one presentation LogicalMonitorConfig. -/
def presentation_group : MetaMonitorsConfig :=
  { logical_monitor_configs :=
      [ { layout := ⟨0, 0, 1920, 1080⟩, monitor_configs := [config_PanelA, config_ExternalB],
          is_primary := true, is_presentation := true } ] }

/-- The result of assigning the presentation group. -/
def assigned_presentation_group : AssignArrays :=
  ([ { crtc := 1000, mode := 500, x := 0, y := 0,
       transform := MetaMonitorTransform.NORMAL, outputs := [100] },
     { crtc := 1001, mode := 600, x := 0, y := 0,
       transform := MetaMonitorTransform.NORMAL, outputs := [200] } ],
   [ { output := 100, is_primary := true, is_presentation := true,
       is_underscanning := false },
     { output := 200, is_primary := false, is_presentation := true,
       is_underscanning := true } ])

/-! ## Lemmas on CRTC selection -/

theorem is_crtc_assigned_iff (crtc : MetaCrtc) (crtc_infos : List MetaCrtcInfo) :
    is_crtc_assigned crtc crtc_infos = true ↔
      crtc ∈ crtc_infos.map (fun info => info.crtc) := by
  induction crtc_infos with
  | nil => simp [is_crtc_assigned]
  | cons info rest ih =>
    by_cases h : info.crtc = crtc
    · simp [is_crtc_assigned, h]
    · have h1 : ¬ crtc = info.crtc := fun e => h e.symm
      simp [is_crtc_assigned, h, h1, ih]

theorem find_unassigned_crtc_loop_some {possible : List MetaCrtc}
    {crtc_infos : List MetaCrtcInfo} {crtc : MetaCrtc}
    (h : find_unassigned_crtc_loop possible crtc_infos = some crtc) :
    crtc ∈ possible ∧ crtc ∉ crtc_infos.map (fun info => info.crtc) := by
  induction possible with
  | nil => simp [find_unassigned_crtc_loop] at h
  | cons c rest ih =>
    unfold find_unassigned_crtc_loop at h
    by_cases hc : is_crtc_assigned c crtc_infos = true
    · rw [if_pos hc] at h
      exact ⟨List.mem_cons_of_mem _ (ih h).1, (ih h).2⟩
    · rw [if_neg hc] at h
      cases h
      exact ⟨List.mem_cons_self _ _, fun hm => hc ((is_crtc_assigned_iff _ _).2 hm)⟩

/-- A successful call of `assign_monitor_crtc` appends one entry to each array. -/
theorem assign_monitor_crtc_ok {manager : MetaMonitorManager} {monitor : MetaMonitor}
    {mode : MetaMonitorMode} {cm : MetaMonitorCrtcMode}
    {data data1 : MonitorAssignmentData}
    (h : assign_monitor_crtc manager monitor mode cm data = Except.ok data1) :
    ∃ crtc, find_unassigned_crtc manager cm.output data.crtc_infos = some crtc ∧
      data1 =
        { logical_monitor_config := data.logical_monitor_config
          monitor_config := data.monitor_config
          crtc_infos := data.crtc_infos ++
            [{ crtc := crtc
               mode := cm.crtc_mode
               x := int_add cm.x data.logical_monitor_config.layout.x
               y := int_add cm.y data.logical_monitor_config.layout.y
               transform := MetaMonitorTransform.NORMAL
               outputs := [cm.output] }]
          output_infos := data.output_infos ++
            [{ output := cm.output
               is_primary :=
                 decide (data.monitor_config = 0 ∧ manager.get_main_output monitor = cm.output)
               is_presentation := data.logical_monitor_config.is_presentation
               is_underscanning := manager.is_underscanning cm.output }] } := by
  unfold assign_monitor_crtc at h
  cases hf : find_unassigned_crtc manager cm.output data.crtc_infos with
  | none => simp [hf] at h
  | some crtc =>
    refine ⟨crtc, rfl, ?_⟩
    simp only [hf] at h
    cases h
    cases hp : data.logical_monitor_config.is_presentation <;>
      by_cases hq : data.monitor_config = 0 ∧ manager.get_main_output monitor = cm.output <;>
      simp [hp, hq]

/-- A failing call of `assign_monitor_crtc` found no CRTC and reports the monitor. -/
theorem assign_monitor_crtc_error {manager : MetaMonitorManager} {monitor : MetaMonitor}
    {mode : MetaMonitorMode} {cm : MetaMonitorCrtcMode}
    {data : MonitorAssignmentData} {e : AssignError}
    (h : assign_monitor_crtc manager monitor mode cm data = Except.error e) :
    find_unassigned_crtc manager cm.output data.crtc_infos = none ∧
      e = AssignError.NoAvailableCrtc (manager.get_spec monitor) := by
  unfold assign_monitor_crtc at h
  cases hf : find_unassigned_crtc manager cm.output data.crtc_infos with
  | none =>
    simp only [hf] at h
    cases h
    exact ⟨rfl, rfl⟩
  | some crtc => simp [hf] at h

/-! ## The nested loops are the walk -/

theorem run_walk_append (manager : MetaMonitorManager) (steps1 steps2 : List WalkStep)
    (arrays : AssignArrays) :
    run_walk manager (steps1 ++ steps2) arrays =
      match run_walk manager steps1 arrays with
      | Except.error e => Except.error e
      | Except.ok arrays1 => run_walk manager steps2 arrays1 := by
  induction steps1 generalizing arrays with
  | nil => simp [run_walk]
  | cons step rest ih =>
    simp only [List.cons_append, run_walk]
    cases step_exec manager step arrays with
    | error e => rfl
    | ok arrays1 => exact ih arrays1

theorem foreach_crtc_loop_eq_run_walk (manager : MetaMonitorManager)
    (monitor : MetaMonitor) (mode : MetaMonitorMode)
    (crtc_modes : List MetaMonitorCrtcMode) (data : MonitorAssignmentData) :
    (match foreach_crtc_loop (assign_monitor_crtc manager monitor mode) crtc_modes data with
      | Except.error e => Except.error e
      | Except.ok data1 => Except.ok (data1.crtc_infos, data1.output_infos)) =
      run_walk manager
        (crtc_modes.map
          (WalkStep.map_crtc data.logical_monitor_config data.monitor_config monitor mode))
        (data.crtc_infos, data.output_infos) := by
  induction crtc_modes generalizing data with
  | nil => simp [foreach_crtc_loop, run_walk]
  | cons cm rest ih =>
    simp only [foreach_crtc_loop, List.map_cons, run_walk, step_exec]
    cases hstep : assign_monitor_crtc manager monitor mode cm data with
    | error e => rfl
    | ok data1 =>
      obtain ⟨crtc, _, hdata1⟩ := assign_monitor_crtc_ok hstep
      have h1 : data1.logical_monitor_config = data.logical_monitor_config := by
        rw [hdata1]
      have h2 : data1.monitor_config = data.monitor_config := by
        rw [hdata1]
      simp only []
      rw [ih data1, h1, h2]

theorem assign_monitor_crtcs_eq_run_walk (manager : MetaMonitorManager)
    (logical_monitor_config : MetaLogicalMonitorConfig) (pos : Nat)
    (monitor_config : MetaMonitorConfig) (arrays : AssignArrays) :
    assign_monitor_crtcs manager logical_monitor_config pos monitor_config arrays =
      run_walk manager
        (monitor_config_steps manager logical_monitor_config pos monitor_config) arrays := by
  unfold assign_monitor_crtcs monitor_config_steps
  cases hm : manager.get_monitor_from_spec monitor_config.monitor_spec with
  | none => simp [run_walk, step_exec, hm]
  | some monitor =>
    cases hmode : manager.get_mode_from_spec monitor monitor_config.mode_spec with
    | none => simp [run_walk, step_exec, hm, hmode]
    | some mode =>
      simp only [run_walk, step_exec, hm, hmode, meta_monitor_mode_foreach_crtc]
      exact foreach_crtc_loop_eq_run_walk manager monitor mode _
        { logical_monitor_config := logical_monitor_config
          monitor_config := pos
          crtc_infos := arrays.1
          output_infos := arrays.2 }

theorem assign_logical_monitor_crtcs_loop_eq_run_walk (manager : MetaMonitorManager)
    (logical_monitor_config : MetaLogicalMonitorConfig) (pos : Nat)
    (monitor_configs : List MetaMonitorConfig) (arrays : AssignArrays) :
    assign_logical_monitor_crtcs_loop manager logical_monitor_config pos monitor_configs
        arrays =
      run_walk manager
        (logical_monitor_steps manager logical_monitor_config pos monitor_configs) arrays := by
  induction monitor_configs generalizing pos arrays with
  | nil => simp [assign_logical_monitor_crtcs_loop, logical_monitor_steps, run_walk]
  | cons mc rest ih =>
    simp only [assign_logical_monitor_crtcs_loop, logical_monitor_steps, run_walk_append,
      assign_monitor_crtcs_eq_run_walk]
    cases run_walk manager (monitor_config_steps manager logical_monitor_config pos mc)
        arrays with
    | error e => rfl
    | ok arrays1 => exact ih (pos + 1) arrays1

theorem assign_loop_eq_run_walk (manager : MetaMonitorManager)
    (logical_monitor_configs : List MetaLogicalMonitorConfig) (arrays : AssignArrays) :
    assign_loop manager logical_monitor_configs arrays =
      run_walk manager (walk_steps manager logical_monitor_configs) arrays := by
  induction logical_monitor_configs generalizing arrays with
  | nil => simp [assign_loop, walk_steps, run_walk]
  | cons lmc rest ih =>
    simp only [assign_loop, walk_steps, run_walk_append, assign_logical_monitor_crtcs,
      assign_logical_monitor_crtcs_loop_eq_run_walk]
    cases run_walk manager
        (logical_monitor_steps manager lmc 0 lmc.monitor_configs) arrays with
    | error e => rfl
    | ok arrays1 => exact ih arrays1

theorem assign_eq_run_walk (manager : MetaMonitorManager) (config : MetaMonitorsConfig) :
    meta_monitor_config_manager_assign manager config =
      run_walk manager (walk_steps manager config.logical_monitor_configs) ([], []) :=
  assign_loop_eq_run_walk manager config.logical_monitor_configs ([], [])

/-! ## What the steps of a walk do -/

/-- A step that succeeds either is a lookup and leaves the arrays alone, or appends
one entry to each array for the output it targets, with a CRTC that the output can
use and that no earlier entry holds. -/
theorem step_exec_ok {manager : MetaMonitorManager} {step : WalkStep}
    {arrays arrays1 : AssignArrays}
    (h : step_exec manager step arrays = Except.ok arrays1) :
    (step_output step = none ∧ arrays1 = arrays) ∨
      ∃ output crtc_info output_info,
        step_output step = some output ∧
        crtc_info.crtc ∈ manager.possible_crtcs output ∧
        crtc_info.crtc ∉ arrays.1.map (fun info => info.crtc) ∧
        crtc_info.outputs = [output] ∧
        output_info.output = output ∧
        arrays1 = (arrays.1 ++ [crtc_info], arrays.2 ++ [output_info]) := by
  cases step with
  | resolve_monitor mc =>
    left
    simp only [step_exec] at h
    cases hm : manager.get_monitor_from_spec mc.monitor_spec with
    | none => simp [hm] at h
    | some m =>
      simp only [hm] at h
      cases h
      exact ⟨rfl, rfl⟩
  | resolve_mode monitor mc =>
    left
    simp only [step_exec] at h
    cases hm : manager.get_mode_from_spec monitor mc.mode_spec with
    | none => simp [hm] at h
    | some m =>
      simp only [hm] at h
      cases h
      exact ⟨rfl, rfl⟩
  | map_crtc lmc pos monitor mode cm =>
    right
    simp only [step_exec] at h
    cases hstep : assign_monitor_crtc manager monitor mode cm
        { logical_monitor_config := lmc, monitor_config := pos,
          crtc_infos := arrays.1, output_infos := arrays.2 } with
    | error e => simp [hstep] at h
    | ok data1 =>
      simp only [hstep] at h
      cases h
      obtain ⟨crtc, hfind, hdata1⟩ := assign_monitor_crtc_ok hstep
      have hsel := find_unassigned_crtc_loop_some hfind
      rw [hdata1]
      exact ⟨cm.output, _, _, rfl, hsel.1, hsel.2, rfl, rfl, rfl⟩

/-- A property of the arrays that every successful step keeps holds after every
successful walk. -/
theorem run_walk_invariant (manager : MetaMonitorManager) (P : AssignArrays → Prop)
    (hstep : ∀ step arrays arrays1, P arrays →
      step_exec manager step arrays = Except.ok arrays1 → P arrays1)
    (steps : List WalkStep) (arrays arrays1 : AssignArrays) (h0 : P arrays)
    (h : run_walk manager steps arrays = Except.ok arrays1) : P arrays1 := by
  induction steps generalizing arrays with
  | nil =>
    simp only [run_walk] at h
    cases h
    exact h0
  | cons step rest ih =>
    simp only [run_walk] at h
    cases hs : step_exec manager step arrays with
    | error e => simp [hs] at h
    | ok arrays2 =>
      simp only [hs] at h
      exact ih arrays2 (hstep step arrays arrays2 h0 hs) h

/-- After a successful walk from arrays whose CRTCs are pairwise distinct, the CRTCs
are pairwise distinct. -/
theorem run_walk_crtcs_nodup (manager : MetaMonitorManager) (steps : List WalkStep)
    (arrays arrays1 : AssignArrays)
    (h0 : (arrays.1.map (fun info => info.crtc)).Nodup)
    (h : run_walk manager steps arrays = Except.ok arrays1) :
    (arrays1.1.map (fun info => info.crtc)).Nodup := by
  refine run_walk_invariant manager
    (fun arrays => (arrays.1.map (fun info => info.crtc)).Nodup) ?_ _ _ _ h0 h
  intro step arrays arrays1 hP hs
  rcases step_exec_ok hs with ⟨_, rfl⟩ | ⟨o, ci, oi, _, _, hnew, _, _, rfl⟩
  · exact hP
  · simp only [List.map_append, List.map_cons, List.map_nil]
    refine List.Nodup.append hP (List.nodup_singleton _) ?_
    intro c hc1 hc2
    rw [List.mem_singleton] at hc2
    exact hnew (hc2 ▸ hc1)

/-! ## Invariants of a successful assignment -/

/-- C1: whenever `meta_monitor_config_manager_assign` succeeds, the CRTCs of the
returned CrtcAssignments are pairwise distinct: no CRTC appears in more than one of
them. -/
theorem assign_crtcs_pairwise_distinct (manager : MetaMonitorManager)
    (config : MetaMonitorsConfig) (crtc_infos : List MetaCrtcInfo)
    (output_infos : List MetaOutputInfo)
    (h : meta_monitor_config_manager_assign manager config =
      Except.ok (crtc_infos, output_infos)) :
    (crtc_infos.map (fun info => info.crtc)).Nodup := by
  rw [assign_eq_run_walk] at h
  exact run_walk_crtcs_nodup manager _ ([], []) (crtc_infos, output_infos) (by simp) h

/-- The linear layout of PanelA and ExternalB is assigned, and the two CRTCs of the
result differ. -/
theorem assign_crtcs_pairwise_distinct_witness :
    meta_monitor_config_manager_assign laptop_and_external linear_PanelA_ExternalB =
        Except.ok assigned_PanelA_ExternalB ∧
      (assigned_PanelA_ExternalB.1.map (fun info => info.crtc)).Nodup :=
  ⟨by rfl,
    assign_crtcs_pairwise_distinct laptop_and_external linear_PanelA_ExternalB
      assigned_PanelA_ExternalB.1 assigned_PanelA_ExternalB.2 (by rfl)⟩

/-- C10: for every successful `meta_monitor_config_manager_assign` the two result
lists have the same length and, at every index, the output list of the CrtcAssignment
is the singleton of the output of the OutputAssignment at that index. -/
theorem assign_outputs_correspond (manager : MetaMonitorManager)
    (config : MetaMonitorsConfig) (crtc_infos : List MetaCrtcInfo)
    (output_infos : List MetaOutputInfo)
    (h : meta_monitor_config_manager_assign manager config =
      Except.ok (crtc_infos, output_infos)) :
    crtc_infos.length = output_infos.length ∧
      ∀ k : Nat, (crtc_infos[k]?).map (fun info => info.outputs) =
        (output_infos[k]?).map (fun info => [info.output]) := by
  rw [assign_eq_run_walk] at h
  have hmap : crtc_infos.map (fun info => info.outputs) =
      output_infos.map (fun info => [info.output]) := by
    refine run_walk_invariant manager
      (fun arrays => arrays.1.map (fun info => info.outputs) =
        arrays.2.map (fun info => [info.output])) ?_ _ _ _ ?_ h
    · intro step arrays arrays1 hP hs
      rcases step_exec_ok hs with ⟨_, rfl⟩ | ⟨o, ci, oi, _, _, _, hco, hoo, rfl⟩
      · exact hP
      · simp only [List.map_append, List.map_cons, List.map_nil, hP, hco, hoo]
    · simp
  constructor
  · have := congrArg List.length hmap
    simpa using this
  · intro k
    have := congrArg (fun l => l[k]?) hmap
    simpa [List.getElem?_map] using this

/-- In the assignment of the linear layout of PanelA and ExternalB both lists have two
entries, for outputs 100 and 200 in this order. -/
theorem assign_outputs_correspond_witness :
    meta_monitor_config_manager_assign laptop_and_external linear_PanelA_ExternalB =
        Except.ok assigned_PanelA_ExternalB ∧
      (assigned_PanelA_ExternalB.1.length = assigned_PanelA_ExternalB.2.length ∧
        ∀ k : Nat, (assigned_PanelA_ExternalB.1[k]?).map (fun info => info.outputs) =
          (assigned_PanelA_ExternalB.2[k]?).map (fun info => [info.output])) :=
  ⟨by rfl,
    assign_outputs_correspond laptop_and_external linear_PanelA_ExternalB
      assigned_PanelA_ExternalB.1 assigned_PanelA_ExternalB.2 (by rfl)⟩

/-! ## The primary flag of the outputs -/

/-- C2, the code at the failing input: the linear layout generated for PanelA and
ExternalB is assigned successfully, and both OutputAssignments of the result have
`is_primary = true`. -/
theorem assign_linear_layout_marks_two_outputs_primary :
    meta_monitor_config_manager_create_linear ⟨laptop_and_external, none⟩ =
        some linear_PanelA_ExternalB ∧
      meta_monitor_config_manager_assign laptop_and_external linear_PanelA_ExternalB =
        Except.ok assigned_PanelA_ExternalB ∧
      (assigned_PanelA_ExternalB.2.filter (fun info => info.is_primary)).length = 2 := by
  refine ⟨by rfl, by rfl, by decide⟩

/-- C3, the code at the failing input: a config whose only LogicalMonitorConfig has
`is_primary = false` is assigned successfully with an OutputAssignment that has
`is_primary = true`. -/
theorem assign_marks_output_primary_without_primary_logical_monitor :
    only_PanelA_not_primary.logical_monitor_configs.all
        (fun logical_monitor_config => !logical_monitor_config.is_primary) = true ∧
      meta_monitor_config_manager_assign laptop_and_external only_PanelA_not_primary =
        Except.ok assigned_only_PanelA ∧
      assigned_only_PanelA.2.map (fun info => info.is_primary) = [true] := by
  refine ⟨by decide, by rfl, by decide⟩

/-! ## First failure of a walk -/

theorem run_walk_first_failure {manager : MetaMonitorManager} {pre : List WalkStep}
    {step : WalkStep} {arrays arrays1 : AssignArrays} {e : AssignError}
    (hpre : run_walk manager pre arrays = Except.ok arrays1)
    (hstep : step_exec manager step arrays1 = Except.error e) (post : List WalkStep) :
    run_walk manager (pre ++ step :: post) arrays = Except.error e := by
  rw [run_walk_append, hpre]
  simp only [run_walk, hstep]

theorem run_walk_ok_split {manager : MetaMonitorManager} {pre post : List WalkStep}
    {step : WalkStep} {arrays result : AssignArrays}
    (h : run_walk manager (pre ++ step :: post) arrays = Except.ok result) :
    ∃ arrays1 arrays2, run_walk manager pre arrays = Except.ok arrays1 ∧
      step_exec manager step arrays1 = Except.ok arrays2 ∧
      run_walk manager post arrays2 = Except.ok result := by
  rw [run_walk_append] at h
  cases hpre : run_walk manager pre arrays with
  | error e => simp [hpre] at h
  | ok arrays1 =>
    simp only [hpre, run_walk] at h
    cases hstep : step_exec manager step arrays1 with
    | error e => simp [hstep] at h
    | ok arrays2 =>
      simp only [hstep] at h
      exact ⟨arrays1, arrays2, rfl, hstep, h⟩

theorem run_walk_error_iff (manager : MetaMonitorManager) (steps : List WalkStep)
    (arrays : AssignArrays) (e : AssignError) :
    run_walk manager steps arrays = Except.error e ↔
      ∃ pre step post arrays1, steps = pre ++ step :: post ∧
        run_walk manager pre arrays = Except.ok arrays1 ∧
        step_exec manager step arrays1 = Except.error e := by
  constructor
  · intro h
    induction steps generalizing arrays with
    | nil => simp [run_walk] at h
    | cons step rest ih =>
      simp only [run_walk] at h
      cases hs : step_exec manager step arrays with
      | error e1 =>
        simp only [hs] at h
        cases h
        exact ⟨[], step, rest, arrays, rfl, rfl, hs⟩
      | ok arrays2 =>
        simp only [hs] at h
        obtain ⟨pre, st, post, arrays1, hsplit, hpre, hst⟩ := ih arrays2 h
        refine ⟨step :: pre, st, post, arrays1, by rw [hsplit]; rfl, ?_, hst⟩
        simp only [run_walk, hs]
        exact hpre
  · rintro ⟨pre, step, post, arrays1, rfl, hpre, hst⟩
    exact run_walk_first_failure hpre hst post

/-- The error of a failing step is the one of its kind. -/
theorem step_exec_error {manager : MetaMonitorManager} {step : WalkStep}
    {arrays : AssignArrays} {e : AssignError}
    (h : step_exec manager step arrays = Except.error e) :
    e = step_error manager step := by
  cases step with
  | resolve_monitor mc =>
    simp only [step_exec] at h
    cases hm : manager.get_monitor_from_spec mc.monitor_spec with
    | none =>
      simp only [hm] at h
      cases h
      rfl
    | some m => simp [hm] at h
  | resolve_mode monitor mc =>
    simp only [step_exec] at h
    cases hm : manager.get_mode_from_spec monitor mc.mode_spec with
    | none =>
      simp only [hm] at h
      cases h
      rfl
    | some m => simp [hm] at h
  | map_crtc lmc pos monitor mode cm =>
    simp only [step_exec] at h
    cases hstep : assign_monitor_crtc manager monitor mode cm
        { logical_monitor_config := lmc, monitor_config := pos,
          crtc_infos := arrays.1, output_infos := arrays.2 } with
    | error e1 =>
      simp only [hstep] at h
      cases h
      exact (assign_monitor_crtc_error hstep).2
    | ok data1 => simp [hstep] at h

theorem resolve_monitor_mem_logical_monitor_steps (manager : MetaMonitorManager)
    (logical_monitor_config : MetaLogicalMonitorConfig) (pos : Nat)
    (monitor_configs : List MetaMonitorConfig) (monitor_config : MetaMonitorConfig)
    (h : monitor_config ∈ monitor_configs) :
    WalkStep.resolve_monitor monitor_config ∈
      logical_monitor_steps manager logical_monitor_config pos monitor_configs := by
  induction monitor_configs generalizing pos with
  | nil => cases h
  | cons mc rest ih =>
    simp only [logical_monitor_steps, List.mem_append]
    rcases List.mem_cons.1 h with rfl | hrest
    · left
      simp [monitor_config_steps]
    · right
      exact ih (pos + 1) hrest

theorem resolve_monitor_mem_walk_steps (manager : MetaMonitorManager)
    (logical_monitor_configs : List MetaLogicalMonitorConfig)
    (logical_monitor_config : MetaLogicalMonitorConfig) (monitor_config : MetaMonitorConfig)
    (hl : logical_monitor_config ∈ logical_monitor_configs)
    (hm : monitor_config ∈ logical_monitor_config.monitor_configs) :
    WalkStep.resolve_monitor monitor_config ∈ walk_steps manager logical_monitor_configs := by
  induction logical_monitor_configs with
  | nil => cases hl
  | cons lmc rest ih =>
    simp only [walk_steps, List.mem_append]
    rcases List.mem_cons.1 hl with rfl | hrest
    · left
      exact resolve_monitor_mem_logical_monitor_steps manager _ 0 _ _ hm
    · right
      exact ih hrest

/-! ## Failure of an assignment -/

/-- C4 as stated fails: PanelA is configured at a mode it does not have and is followed
by a monitor that is not in the inventory; the assignment fails with `InvalidMode` for
PanelA, not with `MonitorNotFound`. -/
theorem assign_unknown_monitor_after_invalid_mode :
    laptop_and_external.get_monitor_from_spec spec_Unplugged = none ∧
      meta_monitor_config_manager_assign laptop_and_external bad_mode_then_unplugged =
        Except.error (AssignError.InvalidMode ⟨800, 600, 60⟩ spec_PanelA) := by
  refine ⟨by rfl, by rfl⟩

/-- C4, amended: when some MonitorConfig of the config has a `monitor_spec` that
matches no monitor of the inventory, `meta_monitor_config_manager_assign` fails with
the error of the first failing step of the walk and returns no CrtcAssignment and no
OutputAssignment; the error is `MonitorNotFound` for that spec whenever all steps
before the monitor lookup of that MonitorConfig succeed. -/
theorem assign_fails_on_unknown_monitor (manager : MetaMonitorManager)
    (config : MetaMonitorsConfig) (logical_monitor_config : MetaLogicalMonitorConfig)
    (monitor_config : MetaMonitorConfig)
    (hl : logical_monitor_config ∈ config.logical_monitor_configs)
    (hm : monitor_config ∈ logical_monitor_config.monitor_configs)
    (hnone : manager.get_monitor_from_spec monitor_config.monitor_spec = none) :
    (∃ e pre step post arrays,
        walk_steps manager config.logical_monitor_configs = pre ++ step :: post ∧
        run_walk manager pre ([], []) = Except.ok arrays ∧
        step_exec manager step arrays = Except.error e ∧
        meta_monitor_config_manager_assign manager config = Except.error e) ∧
      returned_crtc_infos (meta_monitor_config_manager_assign manager config) = [] ∧
      returned_output_infos (meta_monitor_config_manager_assign manager config) = [] ∧
      WalkStep.resolve_monitor monitor_config ∈
        walk_steps manager config.logical_monitor_configs ∧
      ∀ pre post arrays,
        walk_steps manager config.logical_monitor_configs =
          pre ++ WalkStep.resolve_monitor monitor_config :: post →
        run_walk manager pre ([], []) = Except.ok arrays →
        meta_monitor_config_manager_assign manager config =
          Except.error (AssignError.MonitorNotFound monitor_config.monitor_spec) := by
  have hmem := resolve_monitor_mem_walk_steps manager _ _ _ hl hm
  have hfail : ∀ arrays, step_exec manager (WalkStep.resolve_monitor monitor_config) arrays =
      Except.error (AssignError.MonitorNotFound monitor_config.monitor_spec) := by
    intro arrays
    simp [step_exec, hnone]
  have herr : ∃ e, meta_monitor_config_manager_assign manager config = Except.error e := by
    cases hres : meta_monitor_config_manager_assign manager config with
    | error e => exact ⟨e, rfl⟩
    | ok result =>
      exfalso
      obtain ⟨pre, post, hsplit⟩ := List.append_of_mem hmem
      rw [assign_eq_run_walk, hsplit] at hres
      obtain ⟨arrays1, arrays2, _, hstep, _⟩ := run_walk_ok_split hres
      rw [hfail arrays1] at hstep
      cases hstep
  obtain ⟨e, he⟩ := herr
  refine ⟨?_, ?_, ?_, hmem, ?_⟩
  · have he1 := he
    rw [assign_eq_run_walk] at he1
    obtain ⟨pre, step, post, arrays1, hsplit, hpre, hstep⟩ :=
      (run_walk_error_iff manager _ _ e).1 he1
    exact ⟨e, pre, step, post, arrays1, hsplit, hpre, hstep, he⟩
  · rw [he]
    rfl
  · rw [he]
    rfl
  · intro pre post arrays hsplit hpre
    rw [assign_eq_run_walk, hsplit]
    exact run_walk_first_failure hpre (hfail arrays) post

/-- PanelA followed by a monitor that is not in the inventory: the lookup of the latter
is the first failing step, and the assignment fails with `MonitorNotFound` for it. -/
theorem assign_fails_on_unknown_monitor_witness :
    ({ layout := ⟨1920, 0, 1024, 768⟩,
       monitor_configs := [{ monitor_spec := spec_Unplugged, mode_spec := ⟨1024, 768, 60⟩ }],
       is_primary := false, is_presentation := false } : MetaLogicalMonitorConfig) ∈
        PanelA_then_unplugged.logical_monitor_configs ∧
      laptop_and_external.get_monitor_from_spec spec_Unplugged = none ∧
      meta_monitor_config_manager_assign laptop_and_external PanelA_then_unplugged =
        Except.error (AssignError.MonitorNotFound spec_Unplugged) :=
  ⟨by decide, by rfl,
    (assign_fails_on_unknown_monitor laptop_and_external PanelA_then_unplugged
      { layout := ⟨1920, 0, 1024, 768⟩,
        monitor_configs := [{ monitor_spec := spec_Unplugged, mode_spec := ⟨1024, 768, 60⟩ }],
        is_primary := false, is_presentation := false }
      { monitor_spec := spec_Unplugged, mode_spec := ⟨1024, 768, 60⟩ }
      (by decide) (by decide) (by rfl)).2.2.2.2
      [WalkStep.resolve_monitor config_PanelA, WalkStep.resolve_mode 1 config_PanelA,
        WalkStep.map_crtc
          { layout := ⟨0, 0, 1920, 1080⟩, monitor_configs := [config_PanelA],
            is_primary := true, is_presentation := false }
          0 1 10 { output := 100, crtc_mode := 500, x := 0, y := 0 }]
      [] assigned_only_PanelA (by rfl) (by rfl)⟩

/-- C6: `meta_monitor_config_manager_assign` is the walk over the steps of the config in
walk order (monitor lookup, mode lookup, then the mappings, for each MonitorConfig of
each LogicalMonitorConfig in order).  It fails exactly when some step fails after all
steps before it succeeded, with the error of that first failing step, which is
`MonitorNotFound`, `InvalidMode` or `NoAvailableCrtc` by the kind of the step; when it
succeeds every step succeeded; on failure no CrtcAssignment and no OutputAssignment is
returned; and the steps after the first failing one do not matter. -/
theorem assign_whole_or_nothing_first_error (manager : MetaMonitorManager)
    (config : MetaMonitorsConfig) :
    meta_monitor_config_manager_assign manager config =
        run_walk manager (walk_steps manager config.logical_monitor_configs) ([], []) ∧
      (∀ e, meta_monitor_config_manager_assign manager config = Except.error e ↔
        ∃ pre step post arrays,
          walk_steps manager config.logical_monitor_configs = pre ++ step :: post ∧
          run_walk manager pre ([], []) = Except.ok arrays ∧
          step_exec manager step arrays = Except.error e) ∧
      (∀ step arrays e, step_exec manager step arrays = Except.error e →
        e = step_error manager step) ∧
      (∀ result, meta_monitor_config_manager_assign manager config = Except.ok result →
        ∀ pre step post,
          walk_steps manager config.logical_monitor_configs = pre ++ step :: post →
          ∃ arrays arrays1, run_walk manager pre ([], []) = Except.ok arrays ∧
            step_exec manager step arrays = Except.ok arrays1) ∧
      (∀ e, meta_monitor_config_manager_assign manager config = Except.error e →
        returned_crtc_infos (meta_monitor_config_manager_assign manager config) = [] ∧
        returned_output_infos (meta_monitor_config_manager_assign manager config) = []) ∧
      (∀ pre step arrays e,
        run_walk manager pre ([], []) = Except.ok arrays →
        step_exec manager step arrays = Except.error e →
        ∀ post, run_walk manager (pre ++ step :: post) ([], []) = Except.error e) := by
  refine ⟨assign_eq_run_walk manager config, ?_, ?_, ?_, ?_, ?_⟩
  · intro e
    rw [assign_eq_run_walk]
    exact run_walk_error_iff manager _ _ e
  · intro step arrays e h
    exact step_exec_error h
  · intro result h pre step post hsplit
    rw [assign_eq_run_walk, hsplit] at h
    obtain ⟨arrays1, arrays2, hpre, hstep, _⟩ := run_walk_ok_split h
    exact ⟨arrays1, arrays2, hpre, hstep⟩
  · intro e h
    rw [h]
    exact ⟨rfl, rfl⟩
  · intro pre step arrays e hpre hstep post
    exact run_walk_first_failure hpre hstep post

/-! ## Outputs that need more CRTCs than they can use -/

theorem run_walk_outputs (manager : MetaMonitorManager) (steps : List WalkStep)
    (arrays arrays1 : AssignArrays)
    (h : run_walk manager steps arrays = Except.ok arrays1) :
    arrays1.1.map (fun info => info.outputs) =
      arrays.1.map (fun info => info.outputs) ++
        (mapped_outputs steps).map (fun output => [output]) := by
  induction steps generalizing arrays with
  | nil =>
    simp only [run_walk] at h
    cases h
    simp [mapped_outputs]
  | cons step rest ih =>
    simp only [run_walk] at h
    cases hs : step_exec manager step arrays with
    | error e => simp [hs] at h
    | ok arrays2 =>
      simp only [hs] at h
      rw [ih arrays2 h]
      rcases step_exec_ok hs with ⟨hout, rfl⟩ | ⟨o, ci, oi, hout, _, _, hco, _, rfl⟩
      · simp [mapped_outputs, List.filterMap_cons, hout]
      · simp [mapped_outputs, List.filterMap_cons, hout, hco]

theorem run_walk_crtcs_possible (manager : MetaMonitorManager) (steps : List WalkStep)
    (arrays : AssignArrays)
    (h : run_walk manager steps ([], []) = Except.ok arrays) :
    ∀ info ∈ arrays.1, ∃ output, info.outputs = [output] ∧
      info.crtc ∈ manager.possible_crtcs output := by
  refine run_walk_invariant manager
    (fun arrays => ∀ info ∈ arrays.1, ∃ output, info.outputs = [output] ∧
      info.crtc ∈ manager.possible_crtcs output) ?_ _ _ _ ?_ h
  · intro step arrays arrays1 hP hs
    rcases step_exec_ok hs with ⟨_, rfl⟩ | ⟨o, ci, oi, _, hposs, _, hco, _, rfl⟩
    · exact hP
    · intro info hinfo
      rcases List.mem_append.1 hinfo with hold | hnew
      · exact hP info hold
      · rw [List.mem_singleton] at hnew
        subst hnew
        exact ⟨o, hco, hposs⟩
  · intro info hinfo
    cases hinfo

theorem length_filter_outputs_eq_count (output : MetaOutput) :
    ∀ (outputs : List MetaOutput) (crtc_infos : List MetaCrtcInfo),
      crtc_infos.map (fun info => info.outputs) = outputs.map (fun o => [o]) →
      (crtc_infos.filter (fun info => decide (info.outputs = [output]))).length =
        outputs.count output
  | [], [], _ => rfl
  | [], _ :: _, h => by simp at h
  | _ :: _, [], h => by simp at h
  | o :: os, info :: rest, h => by
    simp only [List.map_cons, List.cons.injEq] at h
    have ih := length_filter_outputs_eq_count output os rest h.2
    by_cases ho : o = output
    · subst ho
      simp [List.filter_cons, h.1, ih]
    · have hne : ¬ info.outputs = [output] := by
        rw [h.1]
        simpa using ho
      simp [List.filter_cons, hne, List.count_cons, ho, ih]

/-- In a successful walk the mappings that target one output are at most as many as
the distinct CRTCs the output can use. -/
theorem run_walk_mappings_le_possible (manager : MetaMonitorManager) (steps : List WalkStep)
    (arrays : AssignArrays) (output : MetaOutput)
    (h : run_walk manager steps ([], []) = Except.ok arrays) :
    (mapped_outputs steps).count output ≤ ((manager.possible_crtcs output).dedup).length := by
  have hout := run_walk_outputs manager steps ([], []) arrays h
  have hnodup := run_walk_crtcs_nodup manager steps ([], []) arrays (by simp) h
  have hposs := run_walk_crtcs_possible manager steps arrays h
  have hcount : (mapped_outputs steps).count output =
      (arrays.1.filter (fun info => decide (info.outputs = [output]))).length := by
    simp only [List.map_nil, List.nil_append] at hout
    exact (length_filter_outputs_eq_count output _ _ hout).symm
  rw [hcount, ← List.length_map _ (fun info : MetaCrtcInfo => info.crtc)]
  refine (List.subperm_of_subset ?_ ?_).length_le
  · exact List.Nodup.sublist (List.Sublist.map _ (List.filter_sublist _)) hnodup
  · intro crtc hcrtc
    obtain ⟨info, hinfo, rfl⟩ := List.mem_map.1 hcrtc
    obtain ⟨hmem, hdec⟩ := List.mem_filter.1 hinfo
    have hinfo_out : info.outputs = [output] := of_decide_eq_true hdec
    obtain ⟨o, ho, hp⟩ := hposs info hmem
    rw [hinfo_out] at ho
    have : output = o := by simpa using ho
    subst this
    exact List.mem_dedup.2 hp

theorem monitor_config_steps_resolve (manager : MetaMonitorManager)
    (logical_monitor_config : MetaLogicalMonitorConfig) (pos : Nat)
    (monitor_config : MetaMonitorConfig)
    (h : monitor_config_resolves manager monitor_config = true) :
    ∀ step ∈ monitor_config_steps manager logical_monitor_config pos monitor_config,
      step_resolves manager step = true := by
  unfold monitor_config_resolves at h
  cases hm : manager.get_monitor_from_spec monitor_config.monitor_spec with
  | none => simp [hm] at h
  | some monitor =>
    simp only [hm] at h
    cases hmode : manager.get_mode_from_spec monitor monitor_config.mode_spec with
    | none => simp [hmode] at h
    | some mode =>
      intro step hstep
      simp only [monitor_config_steps, hm, hmode, List.mem_cons, List.mem_map] at hstep
      rcases hstep with rfl | rfl | ⟨cm, _, rfl⟩
      · simp [step_resolves, hm]
      · simp [step_resolves, hmode]
      · rfl

theorem logical_monitor_steps_resolve (manager : MetaMonitorManager)
    (logical_monitor_config : MetaLogicalMonitorConfig) (pos : Nat)
    (monitor_configs : List MetaMonitorConfig)
    (h : monitor_configs.all (monitor_config_resolves manager) = true) :
    ∀ step ∈ logical_monitor_steps manager logical_monitor_config pos monitor_configs,
      step_resolves manager step = true := by
  induction monitor_configs generalizing pos with
  | nil =>
    intro step hstep
    simp [logical_monitor_steps] at hstep
  | cons mc rest ih =>
    simp only [List.all_cons, Bool.and_eq_true] at h
    intro step hstep
    simp only [logical_monitor_steps, List.mem_append] at hstep
    rcases hstep with h1 | h2
    · exact monitor_config_steps_resolve manager _ pos mc h.1 step h1
    · exact ih (pos + 1) h.2 step h2

theorem walk_steps_resolve (manager : MetaMonitorManager)
    (logical_monitor_configs : List MetaLogicalMonitorConfig)
    (h : logical_monitor_configs.all
      (fun logical_monitor_config =>
        logical_monitor_config.monitor_configs.all (monitor_config_resolves manager)) = true) :
    ∀ step ∈ walk_steps manager logical_monitor_configs,
      step_resolves manager step = true := by
  induction logical_monitor_configs with
  | nil =>
    intro step hstep
    simp [walk_steps] at hstep
  | cons lmc rest ih =>
    simp only [List.all_cons, Bool.and_eq_true] at h
    intro step hstep
    simp only [walk_steps, List.mem_append] at hstep
    rcases hstep with h1 | h2
    · exact logical_monitor_steps_resolve manager lmc 0 _ h.1 step h1
    · exact ih h.2 step h2

/-- A step whose lookup succeeds can only fail for want of a CRTC. -/
theorem step_exec_error_of_resolves {manager : MetaMonitorManager} {step : WalkStep}
    {arrays : AssignArrays} {e : AssignError}
    (hres : step_resolves manager step = true)
    (h : step_exec manager step arrays = Except.error e) :
    ∃ monitor_spec, e = AssignError.NoAvailableCrtc monitor_spec := by
  have he := step_exec_error h
  cases step with
  | resolve_monitor mc =>
    simp only [step_exec] at h
    simp only [step_resolves] at hres
    cases hm : manager.get_monitor_from_spec mc.monitor_spec with
    | none => simp [hm] at hres
    | some m => simp [hm] at h
  | resolve_mode monitor mc =>
    simp only [step_exec] at h
    simp only [step_resolves] at hres
    cases hm : manager.get_mode_from_spec monitor mc.mode_spec with
    | none => simp [hm] at hres
    | some m => simp [hm] at h
  | map_crtc lmc pos monitor mode cm => exact ⟨_, he⟩

/-- C5: in a config all of whose monitor specs and mode specs resolve, if the mappings
of the walk that target one output are more numerous than the distinct CRTCs of the
possible-CRTC list of that output, `meta_monitor_config_manager_assign` fails with
`NoAvailableCrtc`; all steps before the failing step succeed, and they contain at most
as many mappings of that output as the list has distinct CRTCs, so the failure comes no
later than the mapping that exceeds the list. -/
theorem assign_fails_when_output_exceeds_possible_crtcs (manager : MetaMonitorManager)
    (config : MetaMonitorsConfig) (output : MetaOutput)
    (hres : config_resolves manager config = true)
    (hcount : ((manager.possible_crtcs output).dedup).length <
      (mapped_outputs (walk_steps manager config.logical_monitor_configs)).count output) :
    ∃ pre step post arrays monitor_spec,
      walk_steps manager config.logical_monitor_configs = pre ++ step :: post ∧
      run_walk manager pre ([], []) = Except.ok arrays ∧
      step_exec manager step arrays =
        Except.error (AssignError.NoAvailableCrtc monitor_spec) ∧
      meta_monitor_config_manager_assign manager config =
        Except.error (AssignError.NoAvailableCrtc monitor_spec) ∧
      (mapped_outputs pre).count output ≤ ((manager.possible_crtcs output).dedup).length := by
  cases hrun : run_walk manager (walk_steps manager config.logical_monitor_configs)
      ([], []) with
  | ok arrays =>
    exfalso
    have := run_walk_mappings_le_possible manager _ arrays output hrun
    omega
  | error e =>
    obtain ⟨pre, step, post, arrays, hsplit, hpre, hstep⟩ :=
      (run_walk_error_iff manager _ _ e).1 hrun
    have hmem : step ∈ walk_steps manager config.logical_monitor_configs := by
      rw [hsplit]
      simp
    have hsr := walk_steps_resolve manager config.logical_monitor_configs hres step hmem
    obtain ⟨monitor_spec, rfl⟩ := step_exec_error_of_resolves hsr hstep
    refine ⟨pre, step, post, arrays, monitor_spec, hsplit, hpre, hstep, ?_, ?_⟩
    · rw [assign_eq_run_walk]
      exact hrun
    · exact run_walk_mappings_le_possible manager pre arrays output hpre

/-- PanelA in two logical monitor configs while its output 100 can only use CRTC 1000:
the second mapping of output 100 fails with `NoAvailableCrtc`. -/
theorem assign_fails_when_output_exceeds_possible_crtcs_witness :
    config_resolves laptop_and_external_one_crtc PanelA_twice = true ∧
      ((laptop_and_external_one_crtc.possible_crtcs 100).dedup).length <
        (mapped_outputs
          (walk_steps laptop_and_external_one_crtc
            PanelA_twice.logical_monitor_configs)).count 100 ∧
      ∃ pre step post arrays monitor_spec,
        walk_steps laptop_and_external_one_crtc PanelA_twice.logical_monitor_configs =
          pre ++ step :: post ∧
        run_walk laptop_and_external_one_crtc pre ([], []) = Except.ok arrays ∧
        step_exec laptop_and_external_one_crtc step arrays =
          Except.error (AssignError.NoAvailableCrtc monitor_spec) ∧
        meta_monitor_config_manager_assign laptop_and_external_one_crtc PanelA_twice =
          Except.error (AssignError.NoAvailableCrtc monitor_spec) ∧
        (mapped_outputs pre).count 100 ≤
          ((laptop_and_external_one_crtc.possible_crtcs 100).dedup).length :=
  ⟨by rfl, by decide,
    assign_fails_when_output_exceeds_possible_crtcs laptop_and_external_one_crtc PanelA_twice
      100 (by rfl) (by decide)⟩

/-! ## The primary monitor -/

theorem int_wrap_of_is_int {v : Int} (h : is_int v) : int_wrap v = v := by
  unfold is_int at h
  unfold int_wrap
  omega

theorem int_wrap_add_left (a b : Int) : int_wrap (int_wrap a + b) = int_wrap (a + b) := by
  unfold int_wrap
  omega

/-- The loop of `find_monitor_with_highest_preferred_resolution`: if no monitor left
has an area above `largest_area` the current `largest_monitor` is returned; otherwise
the first monitor left whose area is the largest. -/
theorem find_monitor_with_highest_preferred_resolution_loop_spec
    (manager : MetaMonitorManager) (monitors : List MetaMonitor) (largest_area : Int)
    (largest_monitor : Option MetaMonitor) :
    ((∀ m ∈ monitors, preferred_area manager m ≤ largest_area) →
        find_monitor_with_highest_preferred_resolution_loop manager monitors largest_area
          largest_monitor = largest_monitor) ∧
      ((∃ m ∈ monitors, largest_area < preferred_area manager m) →
        ∃ pre m post, monitors = pre ++ m :: post ∧
          find_monitor_with_highest_preferred_resolution_loop manager monitors largest_area
            largest_monitor = some m ∧
          largest_area < preferred_area manager m ∧
          (∀ m1 ∈ monitors, preferred_area manager m1 ≤ preferred_area manager m) ∧
          (∀ m1 ∈ pre, preferred_area manager m1 < preferred_area manager m)) := by
  induction monitors generalizing largest_area largest_monitor with
  | nil =>
    constructor
    · intro _
      rfl
    · rintro ⟨m, hm, _⟩
      cases hm
  | cons x rest ih =>
    by_cases hx : preferred_area manager x > largest_area
    · have hloop : find_monitor_with_highest_preferred_resolution_loop manager (x :: rest)
          largest_area largest_monitor =
          find_monitor_with_highest_preferred_resolution_loop manager rest
            (preferred_area manager x) (some x) := by
        simp only [find_monitor_with_highest_preferred_resolution_loop]
        rw [if_pos hx]
      constructor
      · intro hall
        have := hall x (List.mem_cons_self _ _)
        omega
      · intro _
        rw [hloop]
        by_cases hrest : ∃ m ∈ rest, preferred_area manager x < preferred_area manager m
        · obtain ⟨pre, m, post, hsplit, hres, hlt, hmax, hfirst⟩ :=
            (ih (preferred_area manager x) (some x)).2 hrest
          refine ⟨x :: pre, m, post, by rw [hsplit]; rfl, hres, by omega, ?_, ?_⟩
          · intro m1 hm1
            rcases List.mem_cons.1 hm1 with rfl | h1
            · omega
            · exact hmax m1 h1
          · intro m1 hm1
            rcases List.mem_cons.1 hm1 with rfl | h1
            · exact hlt
            · exact hfirst m1 h1
        · have hall : ∀ m ∈ rest, preferred_area manager m ≤ preferred_area manager x := by
            intro m hm
            by_contra hcon
            exact hrest ⟨m, hm, by omega⟩
          refine ⟨[], x, rest, rfl,
            (ih (preferred_area manager x) (some x)).1 hall, hx, ?_, ?_⟩
          · intro m1 hm1
            rcases List.mem_cons.1 hm1 with rfl | h1
            · exact le_refl _
            · exact hall m1 h1
          · intro m1 hm1
            cases hm1
    · have hloop : find_monitor_with_highest_preferred_resolution_loop manager (x :: rest)
          largest_area largest_monitor =
          find_monitor_with_highest_preferred_resolution_loop manager rest
            largest_area largest_monitor := by
        simp only [find_monitor_with_highest_preferred_resolution_loop]
        rw [if_neg hx]
      constructor
      · intro hall
        rw [hloop]
        exact (ih largest_area largest_monitor).1
          (fun m hm => hall m (List.mem_cons_of_mem _ hm))
      · rintro ⟨m, hm, hlt⟩
        rw [hloop]
        have hrest : ∃ m ∈ rest, largest_area < preferred_area manager m := by
          rcases List.mem_cons.1 hm with rfl | h1
          · exact absurd hlt hx
          · exact ⟨m, h1, hlt⟩
        obtain ⟨pre, m2, post, hsplit, hres, hlt2, hmax, hfirst⟩ :=
          (ih largest_area largest_monitor).2 hrest
        refine ⟨x :: pre, m2, post, by rw [hsplit]; rfl, hres, hlt2, ?_, ?_⟩
        · intro m1 hm1
          rcases List.mem_cons.1 hm1 with rfl | h1
          · omega
          · exact hmax m1 h1
        · intro m1 hm1
          rcases List.mem_cons.1 hm1 with rfl | h1
          · omega
          · exact hfirst m1 h1

/-- C9 as stated fails: the inventory has one monitor, no reported primary and no
laptop panel; the preferred mode of the monitor is 0x0, the largest area of the
inventory, and `find_primary_monitor` returns no monitor. -/
theorem find_primary_monitor_zero_area :
    zero_area_inventory.get_monitors = [1] ∧
      zero_area_inventory.get_primary_monitor = none ∧
      zero_area_inventory.get_laptop_panel = none ∧
      preferred_area zero_area_inventory 1 = 0 ∧
      find_primary_monitor zero_area_inventory = none := by
  refine ⟨by rfl, by rfl, by rfl, by rfl, by rfl⟩

/-- C9, amended: `find_primary_monitor` returns the reported primary monitor when
there is one; otherwise the laptop panel when there is one; otherwise, when some
monitor of the inventory has a preferred mode of positive area, the first monitor in
inventory order whose area is the largest, and no monitor when no area is positive.
The area is the C `int` product, which is `width * height` when that fits an `int`. -/
theorem find_primary_monitor_three_tiers (manager : MetaMonitorManager) :
    (∀ p, manager.get_primary_monitor = some p → find_primary_monitor manager = some p) ∧
      (manager.get_primary_monitor = none →
        ∀ l, manager.get_laptop_panel = some l → find_primary_monitor manager = some l) ∧
      (manager.get_primary_monitor = none → manager.get_laptop_panel = none →
        ((∃ m ∈ manager.get_monitors, 0 < preferred_area manager m) →
          ∃ pre m post, manager.get_monitors = pre ++ m :: post ∧
            find_primary_monitor manager = some m ∧
            0 < preferred_area manager m ∧
            (∀ m1 ∈ manager.get_monitors,
              preferred_area manager m1 ≤ preferred_area manager m) ∧
            (∀ m1 ∈ pre, preferred_area manager m1 < preferred_area manager m)) ∧
        ((∀ m ∈ manager.get_monitors, preferred_area manager m ≤ 0) →
          find_primary_monitor manager = none)) ∧
      (∀ m, is_int (preferred_width manager m * preferred_height manager m) →
        preferred_area manager m = preferred_width manager m * preferred_height manager m) := by
  refine ⟨?_, ?_, ?_, ?_⟩
  · intro p hp
    simp [find_primary_monitor, hp]
  · intro hp l hl
    simp [find_primary_monitor, hp, hl]
  · intro hp hl
    have hfind : find_primary_monitor manager =
        find_monitor_with_highest_preferred_resolution_loop manager manager.get_monitors 0
          none := by
      simp [find_primary_monitor, hp, hl, find_monitor_with_highest_preferred_resolution]
    rw [hfind]
    exact ⟨(find_monitor_with_highest_preferred_resolution_loop_spec manager _ 0 none).2,
      (find_monitor_with_highest_preferred_resolution_loop_spec manager _ 0 none).1⟩
  · intro m hm
    exact int_wrap_of_is_int hm

/-- With no reported primary and no laptop panel, of three monitors with preferred
modes 800x600, 1024x768 and 1024x768 the second one is chosen. -/
theorem find_primary_monitor_three_tiers_witness :
    find_primary_monitor laptop_and_external = some 1 ∧
      ((∃ m ∈ three_monitors.get_monitors, 0 < preferred_area three_monitors m) →
        ∃ pre m post, three_monitors.get_monitors = pre ++ m :: post ∧
          find_primary_monitor three_monitors = some m ∧
          0 < preferred_area three_monitors m ∧
          (∀ m1 ∈ three_monitors.get_monitors,
            preferred_area three_monitors m1 ≤ preferred_area three_monitors m) ∧
          (∀ m1 ∈ pre, preferred_area three_monitors m1 < preferred_area three_monitors m)) ∧
      find_primary_monitor three_monitors = some 2 :=
  ⟨(find_primary_monitor_three_tiers laptop_and_external).2.1 (by rfl) 1 (by rfl),
    ((find_primary_monitor_three_tiers three_monitors).2.2.1 (by rfl) (by rfl)).1,
    by rfl⟩

/-! ## The generated layouts -/

theorem create_preferred_logical_monitor_config_eq (manager : MetaMonitorManager)
    (monitor : MetaMonitor) (x y : Int) :
    create_preferred_logical_monitor_config manager monitor x y =
      { layout :=
          { x := x, y := y, width := preferred_width manager monitor,
            height := preferred_height manager monitor }
        monitor_configs :=
          [create_monitor_config manager monitor (manager.get_preferred_mode monitor)]
        is_primary := false
        is_presentation := false } := by
  unfold create_preferred_logical_monitor_config preferred_width preferred_height
  rfl

theorem create_linear_loop_eq (manager : MetaMonitorManager) (primary_monitor : MetaMonitor)
    (monitors : List MetaMonitor) (x : Int)
    (logical_monitor_configs : List MetaLogicalMonitorConfig) :
    create_linear_loop manager primary_monitor monitors x logical_monitor_configs =
      logical_monitor_configs ++
        linear_layout manager x
          (monitors.filter (fun monitor => decide (monitor ≠ primary_monitor))) := by
  induction monitors generalizing x logical_monitor_configs with
  | nil => simp [create_linear_loop, linear_layout]
  | cons m rest ih =>
    by_cases hm : m = primary_monitor
    · simp only [create_linear_loop, if_pos hm, ih]
      simp [List.filter_cons, hm]
    · simp only [create_linear_loop, if_neg hm, ih]
      simp [List.filter_cons, hm, linear_layout, create_preferred_logical_monitor_config_eq]

theorem linear_layout_length (manager : MetaMonitorManager) (x : Int)
    (monitors : List MetaMonitor) :
    (linear_layout manager x monitors).length = monitors.length := by
  induction monitors generalizing x with
  | nil => rfl
  | cons m rest ih => simp [linear_layout, ih]

theorem linear_layout_monitor_configs (manager : MetaMonitorManager) (x : Int)
    (monitors : List MetaMonitor) :
    (linear_layout manager x monitors).map (fun l => l.monitor_configs) =
      monitors.map
        (fun m => [create_monitor_config manager m (manager.get_preferred_mode m)]) := by
  induction monitors generalizing x with
  | nil => rfl
  | cons m rest ih =>
    simp [linear_layout, ih, create_preferred_logical_monitor_config_eq]

theorem linear_layout_widths (manager : MetaMonitorManager) (x : Int)
    (monitors : List MetaMonitor) :
    (linear_layout manager x monitors).map (fun l => l.layout.width) =
      monitors.map (preferred_width manager) := by
  induction monitors generalizing x with
  | nil => rfl
  | cons m rest ih =>
    simp [linear_layout, ih, create_preferred_logical_monitor_config_eq]

/-- The entry at position `k` of a linear layout is the preferred config of the
monitor at position `k`, at the offset reached by adding the widths before it. -/
theorem linear_layout_getElem (manager : MetaMonitorManager) (x : Int)
    (monitors : List MetaMonitor) (k : Nat) (m : MetaMonitor)
    (h : monitors[k]? = some m) :
    (linear_layout manager x monitors)[k]? =
      some (create_preferred_logical_monitor_config manager m
        (((monitors.take k).map (preferred_width manager)).foldl int_add x) 0) := by
  induction monitors generalizing x k with
  | nil => simp at h
  | cons m0 rest ih =>
    cases k with
    | zero =>
      simp only [List.getElem?_cons_zero, Option.some.injEq] at h
      subst h
      simp [linear_layout]
    | succ j =>
      simp only [List.getElem?_cons_succ] at h
      simp only [linear_layout, List.getElem?_cons_succ, List.take_succ_cons, List.map_cons,
        List.foldl_cons]
      exact ih _ j h

theorem foldl_int_add_eq (x : Int) (widths : List Int) (h : widths ≠ []) :
    widths.foldl int_add x = int_wrap (x + widths.sum) := by
  induction widths generalizing x with
  | nil => exact absurd rfl h
  | cons w rest ih =>
    by_cases hrest : rest = []
    · subst hrest
      simp [int_add]
    · rw [List.foldl_cons, ih _ hrest, List.sum_cons]
      unfold int_add
      rw [int_wrap_add_left, add_assoc]

theorem length_filter_ne_add_one (primary_monitor : MetaMonitor)
    (monitors : List MetaMonitor) (hnodup : monitors.Nodup)
    (hmem : primary_monitor ∈ monitors) :
    (monitors.filter (fun monitor => decide (monitor ≠ primary_monitor))).length + 1 =
      monitors.length := by
  induction monitors with
  | nil => cases hmem
  | cons x rest ih =>
    rw [List.nodup_cons] at hnodup
    by_cases hx : x = primary_monitor
    · subst hx
      have hall : rest.filter (fun monitor => decide (monitor ≠ x)) = rest := by
        rw [List.filter_eq_self]
        intro a ha
        have : a ≠ x := fun e => hnodup.1 (e ▸ ha)
        simpa using this
      rw [List.filter_cons]
      simp only [ne_eq, not_true_eq_false, decide_False, Bool.false_eq_true, if_false, hall,
        List.length_cons]
    · have hrest : primary_monitor ∈ rest := by
        rcases List.mem_cons.1 hmem with h | h
        · exact absurd h.symm hx
        · exact h
      have := ih hnodup.2 hrest
      simp only [ne_eq] at this
      rw [List.filter_cons]
      simp only [ne_eq, hx, not_false_eq_true, decide_True, if_true, List.length_cons]
      omega

/-- The config that `meta_monitor_config_manager_create_linear` returns when a primary
monitor is found: the primary monitor first, then the linear layout of the others. -/
theorem create_linear_eq (config_manager : MetaMonitorConfigManager)
    (primary_monitor : MetaMonitor)
    (hprimary : find_primary_monitor config_manager.monitor_manager = some primary_monitor) :
    meta_monitor_config_manager_create_linear config_manager =
      some
        { logical_monitor_configs :=
            { layout :=
                { x := 0, y := 0
                  width := preferred_width config_manager.monitor_manager primary_monitor
                  height := preferred_height config_manager.monitor_manager primary_monitor }
              monitor_configs :=
                [create_monitor_config config_manager.monitor_manager primary_monitor
                  (config_manager.monitor_manager.get_preferred_mode primary_monitor)]
              is_primary := true
              is_presentation := false } ::
            linear_layout config_manager.monitor_manager
              (preferred_width config_manager.monitor_manager primary_monitor)
              (other_monitors config_manager.monitor_manager primary_monitor) } := by
  unfold meta_monitor_config_manager_create_linear
  simp only [hprimary, create_linear_loop_eq, create_preferred_logical_monitor_config_eq,
    other_monitors, List.nil_append, List.singleton_append]

/-- C7 as stated fails: the inventory has one monitor, with preferred mode 0x0, no
reported primary and no laptop panel; no primary monitor is selected and
`meta_monitor_config_manager_create_linear` returns no config. -/
theorem create_linear_zero_area :
    zero_area_inventory.get_monitors = [1] ∧
      meta_monitor_config_manager_create_linear ⟨zero_area_inventory, none⟩ = none := by
  refine ⟨by rfl, by rfl⟩

/-- C7, amended: for an inventory of N pairwise distinct monitors in which the primary
selection yields a monitor of the inventory, `meta_monitor_config_manager_create_linear`
returns N LogicalMonitorConfigs, each with one MonitorConfig: first the selected primary
monitor, then the other monitors in inventory order.  The entry at position `k` has
`y = 0`, the preferred width and height of its monitor, `is_primary` exactly for
`k = 0`, and `x` equal to the sum of the widths of the entries before it whenever that
sum fits a C `int` (in general the sum reduced to an `int`). -/
theorem create_linear_side_by_side (config_manager : MetaMonitorConfigManager)
    (primary_monitor : MetaMonitor)
    (hprimary : find_primary_monitor config_manager.monitor_manager = some primary_monitor)
    (hmem : primary_monitor ∈ config_manager.monitor_manager.get_monitors)
    (hnodup : config_manager.monitor_manager.get_monitors.Nodup) :
    ∃ config, meta_monitor_config_manager_create_linear config_manager = some config ∧
      config.logical_monitor_configs.length =
        config_manager.monitor_manager.get_monitors.length ∧
      config.logical_monitor_configs.map (fun l => l.monitor_configs) =
        (primary_monitor :: other_monitors config_manager.monitor_manager primary_monitor).map
          (fun m =>
            [create_monitor_config config_manager.monitor_manager m
              (config_manager.monitor_manager.get_preferred_mode m)]) ∧
      ∀ k l m, config.logical_monitor_configs[k]? = some l →
        (primary_monitor ::
          other_monitors config_manager.monitor_manager primary_monitor)[k]? = some m →
        l.layout.y = 0 ∧
        l.layout.width = preferred_width config_manager.monitor_manager m ∧
        l.layout.height = preferred_height config_manager.monitor_manager m ∧
        l.is_primary = decide (k = 0) ∧
        (is_int (widths_before config.logical_monitor_configs k) →
          l.layout.x = widths_before config.logical_monitor_configs k) ∧
        (k ≠ 1 → l.layout.x = int_wrap (widths_before config.logical_monitor_configs k)) := by
  refine ⟨_, create_linear_eq config_manager primary_monitor hprimary, ?_, ?_, ?_⟩
  · simp only [List.length_cons, linear_layout_length, other_monitors]
    exact length_filter_ne_add_one primary_monitor _ hnodup hmem
  · simp only [List.map_cons, linear_layout_monitor_configs]
  · intro k l m hl hm
    cases k with
    | zero =>
      simp only [List.getElem?_cons_zero, Option.some.injEq] at hl hm
      subst hl
      subst hm
      simp [widths_before, int_wrap]
    | succ j =>
      simp only [List.getElem?_cons_succ] at hl hm
      rw [linear_layout_getElem _ _ _ j m hm, Option.some.injEq] at hl
      subst hl
      have htotal : widths_before
          ({ layout :=
              { x := 0, y := 0
                width := preferred_width config_manager.monitor_manager primary_monitor
                height := preferred_height config_manager.monitor_manager primary_monitor }
             monitor_configs :=
               [create_monitor_config config_manager.monitor_manager primary_monitor
                 (config_manager.monitor_manager.get_preferred_mode primary_monitor)]
             is_primary := true
             is_presentation := false } ::
            linear_layout config_manager.monitor_manager
              (preferred_width config_manager.monitor_manager primary_monitor)
              (other_monitors config_manager.monitor_manager primary_monitor)) (j + 1) =
          preferred_width config_manager.monitor_manager primary_monitor +
            (((other_monitors config_manager.monitor_manager primary_monitor).take j).map
              (preferred_width config_manager.monitor_manager)).sum := by
        simp only [widths_before, List.take_succ_cons, List.map_cons, List.sum_cons]
        rw [List.map_take, linear_layout_widths, ← List.map_take]
      rw [htotal]
      have hne : j ≠ 0 →
          ((other_monitors config_manager.monitor_manager primary_monitor).take j).map
            (preferred_width config_manager.monitor_manager) ≠ [] := by
        intro hj hnil
        have hlt : j < (other_monitors config_manager.monitor_manager
            primary_monitor).length := (List.getElem?_eq_some_iff.1 hm).1
        have hlen := congrArg List.length hnil
        rw [List.length_map, List.length_take] at hlen
        simp only [List.length_nil] at hlen
        omega
      refine ⟨by simp [create_preferred_logical_monitor_config_eq],
        by simp [create_preferred_logical_monitor_config_eq],
        by simp [create_preferred_logical_monitor_config_eq],
        by simp [create_preferred_logical_monitor_config_eq], ?_, ?_⟩
      · intro hint
        simp only [create_preferred_logical_monitor_config_eq]
        by_cases hj : j = 0
        · subst hj
          simp
        · rw [foldl_int_add_eq _ _ (hne hj)]
          exact int_wrap_of_is_int hint
      · intro hk
        simp only [create_preferred_logical_monitor_config_eq]
        have hj : j ≠ 0 := fun e => hk (by rw [e])
        exact foldl_int_add_eq _ _ (hne hj)

/-- For PanelA and ExternalB with no reported primary the laptop panel PanelA is
selected: PanelA at (0, 0, 1920, 1080) primary, ExternalB at (1920, 0, 2560, 1440) not
primary. -/
theorem create_linear_side_by_side_witness :
    find_primary_monitor laptop_and_external_manager.monitor_manager = some 1 ∧
      (1 : MetaMonitor) ∈ laptop_and_external_manager.monitor_manager.get_monitors ∧
      laptop_and_external_manager.monitor_manager.get_monitors.Nodup ∧
      meta_monitor_config_manager_create_linear laptop_and_external_manager =
        some linear_PanelA_ExternalB ∧
      ∃ config, meta_monitor_config_manager_create_linear laptop_and_external_manager =
          some config ∧
        config.logical_monitor_configs.length =
          laptop_and_external_manager.monitor_manager.get_monitors.length ∧
        config.logical_monitor_configs.map (fun l => l.monitor_configs) =
          ((1 : MetaMonitor) ::
            other_monitors laptop_and_external_manager.monitor_manager 1).map
            (fun m =>
              [create_monitor_config laptop_and_external_manager.monitor_manager m
                (laptop_and_external_manager.monitor_manager.get_preferred_mode m)]) ∧
        ∀ k l m, config.logical_monitor_configs[k]? = some l →
          ((1 : MetaMonitor) ::
            other_monitors laptop_and_external_manager.monitor_manager 1)[k]? = some m →
          l.layout.y = 0 ∧
          l.layout.width = preferred_width laptop_and_external_manager.monitor_manager m ∧
          l.layout.height = preferred_height laptop_and_external_manager.monitor_manager m ∧
          l.is_primary = decide (k = 0) ∧
          (is_int (widths_before config.logical_monitor_configs k) →
            l.layout.x = widths_before config.logical_monitor_configs k) ∧
          (k ≠ 1 → l.layout.x = int_wrap (widths_before config.logical_monitor_configs k)) :=
  ⟨by rfl, by decide, by decide, by rfl,
    create_linear_side_by_side laptop_and_external_manager 1 (by rfl) (by decide)
      (by decide)⟩

/-- C8 as stated fails: the inventory has one monitor, with preferred mode 0x0, no
reported primary and no laptop panel; no primary monitor is selected and
`meta_monitor_config_manager_create_fallback` returns no config. -/
theorem create_fallback_zero_area :
    zero_area_inventory.get_monitors = [1] ∧
      meta_monitor_config_manager_create_fallback ⟨zero_area_inventory, none⟩ = none := by
  refine ⟨by rfl, by rfl⟩

/-- C8, amended: whenever the primary selection yields a monitor,
`meta_monitor_config_manager_create_fallback` returns a config with exactly one
LogicalMonitorConfig, at (0, 0) with the preferred width and height of that monitor and
`is_primary = true`, holding exactly one MonitorConfig made of the spec of that monitor
and the spec of its preferred mode; an inventory that selects the same monitor and
agrees on its spec and preferred mode gives the same config, whatever its other
monitors are. -/
theorem create_fallback_single_primary (config_manager : MetaMonitorConfigManager)
    (primary_monitor : MetaMonitor)
    (hprimary : find_primary_monitor config_manager.monitor_manager = some primary_monitor) :
    meta_monitor_config_manager_create_fallback config_manager =
        some
          { logical_monitor_configs :=
              [ { layout :=
                    { x := 0, y := 0
                      width :=
                        preferred_width config_manager.monitor_manager primary_monitor
                      height :=
                        preferred_height config_manager.monitor_manager primary_monitor }
                  monitor_configs :=
                    [ { monitor_spec :=
                          config_manager.monitor_manager.get_spec primary_monitor
                        mode_spec :=
                          config_manager.monitor_manager.mode_get_spec
                            (config_manager.monitor_manager.get_preferred_mode
                              primary_monitor) } ]
                  is_primary := true
                  is_presentation := false } ] } ∧
      ∀ other : MetaMonitorConfigManager,
        find_primary_monitor other.monitor_manager = some primary_monitor →
        other.monitor_manager.get_spec primary_monitor =
          config_manager.monitor_manager.get_spec primary_monitor →
        other.monitor_manager.get_preferred_mode primary_monitor =
          config_manager.monitor_manager.get_preferred_mode primary_monitor →
        other.monitor_manager.mode_get_resolution
            (config_manager.monitor_manager.get_preferred_mode primary_monitor) =
          config_manager.monitor_manager.mode_get_resolution
            (config_manager.monitor_manager.get_preferred_mode primary_monitor) →
        other.monitor_manager.mode_get_spec
            (config_manager.monitor_manager.get_preferred_mode primary_monitor) =
          config_manager.monitor_manager.mode_get_spec
            (config_manager.monitor_manager.get_preferred_mode primary_monitor) →
        meta_monitor_config_manager_create_fallback other =
          meta_monitor_config_manager_create_fallback config_manager := by
  have hform : ∀ cm : MetaMonitorConfigManager,
      find_primary_monitor cm.monitor_manager = some primary_monitor →
      meta_monitor_config_manager_create_fallback cm =
        some
          { logical_monitor_configs :=
              [ { layout :=
                    { x := 0, y := 0
                      width := preferred_width cm.monitor_manager primary_monitor
                      height := preferred_height cm.monitor_manager primary_monitor }
                  monitor_configs :=
                    [ { monitor_spec := cm.monitor_manager.get_spec primary_monitor
                        mode_spec :=
                          cm.monitor_manager.mode_get_spec
                            (cm.monitor_manager.get_preferred_mode primary_monitor) } ]
                  is_primary := true
                  is_presentation := false } ] } := by
    intro cm hcm
    unfold meta_monitor_config_manager_create_fallback
    simp only [hcm, create_preferred_logical_monitor_config_eq, create_monitor_config,
      List.nil_append]
  refine ⟨hform config_manager hprimary, ?_⟩
  intro other hother hspec hmode hres hmspec
  rw [hform other hother, hform config_manager hprimary]
  simp only [preferred_width, preferred_height, hspec, hmode, hres, hmspec]

/-- For PanelA and ExternalB the fallback config holds PanelA alone, at
(0, 0, 1920, 1080) and primary. -/
theorem create_fallback_single_primary_witness :
    find_primary_monitor laptop_and_external_manager.monitor_manager = some 1 ∧
      meta_monitor_config_manager_create_fallback laptop_and_external_manager =
        some
          { logical_monitor_configs :=
              [ { layout := ⟨0, 0, 1920, 1080⟩, monitor_configs := [config_PanelA],
                  is_primary := true, is_presentation := false } ] } :=
  ⟨by rfl,
    (create_fallback_single_primary laptop_and_external_manager 1 (by rfl)).1⟩

/-! ## The entries of a successful walk -/

theorem step_exec_map_crtc_ok {manager : MetaMonitorManager}
    {lmc : MetaLogicalMonitorConfig} {pos : Nat} {monitor : MetaMonitor}
    {mode : MetaMonitorMode} {cm : MetaMonitorCrtcMode} {arrays arrays1 : AssignArrays}
    (h : step_exec manager (WalkStep.map_crtc lmc pos monitor mode cm) arrays =
      Except.ok arrays1) :
    ∃ crtc, find_unassigned_crtc manager cm.output arrays.1 = some crtc ∧
      arrays1 = (arrays.1 ++ [mapping_crtc_info crtc lmc cm],
        arrays.2 ++ [mapping_output_info manager lmc pos monitor cm]) := by
  simp only [step_exec] at h
  cases hstep : assign_monitor_crtc manager monitor mode cm
      { logical_monitor_config := lmc, monitor_config := pos,
        crtc_infos := arrays.1, output_infos := arrays.2 } with
  | error e => simp [hstep] at h
  | ok data1 =>
    simp only [hstep] at h
    cases h
    obtain ⟨crtc, hfind, hdata1⟩ := assign_monitor_crtc_ok hstep
    refine ⟨crtc, hfind, ?_⟩
    rw [hdata1]
    rfl

theorem step_exec_lookup_ok {manager : MetaMonitorManager} {step : WalkStep}
    {arrays arrays1 : AssignArrays} (hout : step_output step = none)
    (h : step_exec manager step arrays = Except.ok arrays1) : arrays1 = arrays := by
  rcases step_exec_ok h with ⟨_, rfl⟩ | ⟨o, ci, oi, hsome, _⟩
  · rfl
  · rw [hout] at hsome
    cases hsome

/-- A successful walk appends one entry to each array per mapping step, in order: the
entry of the mapping, with the first CRTC of its output that the entries before it do
not hold. -/
theorem run_walk_entries (manager : MetaMonitorManager) (steps : List WalkStep)
    (arrays arrays1 : AssignArrays)
    (h : run_walk manager steps arrays = Except.ok arrays1) :
    ∃ new_crtc_infos new_output_infos,
      arrays1 = (arrays.1 ++ new_crtc_infos, arrays.2 ++ new_output_infos) ∧
      new_crtc_infos.length = (mapping_steps steps).length ∧
      new_output_infos.length = (mapping_steps steps).length ∧
      ∀ k step, (mapping_steps steps)[k]? = some step →
        ∃ lmc pos monitor mode cm crtc,
          step = WalkStep.map_crtc lmc pos monitor mode cm ∧
          find_unassigned_crtc manager cm.output (arrays.1 ++ new_crtc_infos.take k) =
            some crtc ∧
          new_crtc_infos[k]? = some (mapping_crtc_info crtc lmc cm) ∧
          new_output_infos[k]? = some (mapping_output_info manager lmc pos monitor cm) := by
  induction steps generalizing arrays with
  | nil =>
    simp only [run_walk] at h
    cases h
    refine ⟨[], [], by simp, rfl, rfl, ?_⟩
    intro k step hk
    simp [mapping_steps] at hk
  | cons st rest ih =>
    simp only [run_walk] at h
    cases hs : step_exec manager st arrays with
    | error e => simp [hs] at h
    | ok arrays2 =>
      simp only [hs] at h
      obtain ⟨cs, os, harr, hlc, hlo, hget⟩ := ih arrays2 h
      cases st with
      | resolve_monitor mc =>
        have h2 : arrays2 = arrays :=
          @step_exec_lookup_ok manager (WalkStep.resolve_monitor mc) arrays arrays2 rfl hs
        subst h2
        exact ⟨cs, os, harr, hlc, hlo, hget⟩
      | resolve_mode monitor mc =>
        have h2 : arrays2 = arrays :=
          @step_exec_lookup_ok manager (WalkStep.resolve_mode monitor mc) arrays arrays2 rfl hs
        subst h2
        exact ⟨cs, os, harr, hlc, hlo, hget⟩
      | map_crtc lmc pos monitor mode cm =>
        obtain ⟨crtc, hfind, h2⟩ := step_exec_map_crtc_ok hs
        subst h2
        have hms : mapping_steps (WalkStep.map_crtc lmc pos monitor mode cm :: rest) =
            WalkStep.map_crtc lmc pos monitor mode cm :: mapping_steps rest := by
          simp [mapping_steps, List.filter_cons, step_output]
        refine ⟨mapping_crtc_info crtc lmc cm :: cs,
          mapping_output_info manager lmc pos monitor cm :: os, ?_, ?_, ?_, ?_⟩
        · rw [harr]
          simp
        · rw [hms]
          simp [hlc]
        · rw [hms]
          simp [hlo]
        · intro k step hk
          rw [hms] at hk
          cases k with
          | zero =>
            simp only [List.getElem?_cons_zero, Option.some.injEq] at hk
            subst hk
            exact ⟨lmc, pos, monitor, mode, cm, crtc, rfl, by simpa using hfind,
              List.getElem?_cons_zero, List.getElem?_cons_zero⟩
          | succ j =>
            simp only [List.getElem?_cons_succ] at hk
            obtain ⟨lmc1, pos1, monitor1, mode1, cm1, crtc1, hst, hf1, hc1, ho1⟩ :=
              hget j step hk
            refine ⟨lmc1, pos1, monitor1, mode1, cm1, crtc1, hst, ?_, ?_, ?_⟩
            · simpa [List.take_succ_cons] using hf1
            · simpa using hc1
            · simpa using ho1

theorem mem_of_mapping_steps_getElem {steps : List WalkStep} {k : Nat} {step : WalkStep}
    (h : (mapping_steps steps)[k]? = some step) : step ∈ steps := by
  have hmem : step ∈ mapping_steps steps := List.getElem?_mem h
  exact (List.mem_filter.1 hmem).1

theorem map_crtc_mem_monitor_config_steps {manager : MetaMonitorManager}
    {lmc lmc1 : MetaLogicalMonitorConfig} {pos pos1 : Nat} {mc : MetaMonitorConfig}
    {monitor : MetaMonitor} {mode : MetaMonitorMode} {cm : MetaMonitorCrtcMode}
    (h : WalkStep.map_crtc lmc1 pos1 monitor mode cm ∈
      monitor_config_steps manager lmc pos mc) :
    lmc1 = lmc ∧ pos1 = pos ∧
      manager.get_monitor_from_spec mc.monitor_spec = some monitor ∧
      manager.get_mode_from_spec monitor mc.mode_spec = some mode ∧
      cm ∈ manager.mode_crtc_modes monitor mode := by
  unfold monitor_config_steps at h
  cases hm : manager.get_monitor_from_spec mc.monitor_spec with
  | none => simp [hm] at h
  | some monitor1 =>
    cases hmode : manager.get_mode_from_spec monitor1 mc.mode_spec with
    | none => simp [hm, hmode] at h
    | some mode1 =>
      simp only [hm, hmode, List.mem_cons, List.mem_map] at h
      rcases h with h | h | ⟨cm1, hcm1, h⟩
      · cases h
      · cases h
      · cases h
        exact ⟨rfl, rfl, rfl, hmode, hcm1⟩

theorem map_crtc_mem_logical_monitor_steps {manager : MetaMonitorManager}
    {lmc lmc1 : MetaLogicalMonitorConfig} {start pos1 : Nat}
    {monitor_configs : List MetaMonitorConfig}
    {monitor : MetaMonitor} {mode : MetaMonitorMode} {cm : MetaMonitorCrtcMode}
    (h : WalkStep.map_crtc lmc1 pos1 monitor mode cm ∈
      logical_monitor_steps manager lmc start monitor_configs) :
    lmc1 = lmc ∧ start ≤ pos1 ∧
      ∃ mc, monitor_configs[pos1 - start]? = some mc ∧
        manager.get_monitor_from_spec mc.monitor_spec = some monitor ∧
        manager.get_mode_from_spec monitor mc.mode_spec = some mode ∧
        cm ∈ manager.mode_crtc_modes monitor mode := by
  induction monitor_configs generalizing start with
  | nil => simp [logical_monitor_steps] at h
  | cons mc rest ih =>
    simp only [logical_monitor_steps, List.mem_append] at h
    rcases h with h | h
    · obtain ⟨h1, h2, h3, h4, h5⟩ := map_crtc_mem_monitor_config_steps h
      subst h2
      exact ⟨h1, le_refl _, mc, by simp, h3, h4, h5⟩
    · obtain ⟨h1, h2, mc1, h3, h4, h5, h6⟩ := ih h
      refine ⟨h1, by omega, mc1, ?_, h4, h5, h6⟩
      have hpos : pos1 - start = (pos1 - (start + 1)) + 1 := by omega
      rw [hpos, List.getElem?_cons_succ]
      exact h3

/-- A mapping step of the walk belongs to a MonitorConfig of the config: the one at the
position it carries in the LogicalMonitorConfig it carries, which resolves to the monitor
and the mode it carries. -/
theorem map_crtc_mem_walk_steps {manager : MetaMonitorManager}
    {logical_monitor_configs : List MetaLogicalMonitorConfig}
    {lmc : MetaLogicalMonitorConfig} {pos : Nat}
    {monitor : MetaMonitor} {mode : MetaMonitorMode} {cm : MetaMonitorCrtcMode}
    (h : WalkStep.map_crtc lmc pos monitor mode cm ∈
      walk_steps manager logical_monitor_configs) :
    lmc ∈ logical_monitor_configs ∧
      ∃ mc, lmc.monitor_configs[pos]? = some mc ∧
        manager.get_monitor_from_spec mc.monitor_spec = some monitor ∧
        manager.get_mode_from_spec monitor mc.mode_spec = some mode ∧
        cm ∈ manager.mode_crtc_modes monitor mode := by
  induction logical_monitor_configs with
  | nil => simp [walk_steps] at h
  | cons lmc0 rest ih =>
    simp only [walk_steps, List.mem_append] at h
    rcases h with h | h
    · obtain ⟨h1, _, mc, h3, h4, h5, h6⟩ := map_crtc_mem_logical_monitor_steps h
      subst h1
      exact ⟨List.mem_cons_self _ _, mc, by simpa using h3, h4, h5, h6⟩
    · obtain ⟨h1, h2⟩ := ih h
      exact ⟨List.mem_cons_of_mem _ h1, h2⟩

/-- The entries of a successful assignment, index by index: entry `k` of both arrays
comes from mapping step `k` of the walk. -/
theorem assign_entries (manager : MetaMonitorManager) (config : MetaMonitorsConfig)
    (crtc_infos : List MetaCrtcInfo) (output_infos : List MetaOutputInfo)
    (h : meta_monitor_config_manager_assign manager config =
      Except.ok (crtc_infos, output_infos)) :
    crtc_infos.length =
        (mapping_steps (walk_steps manager config.logical_monitor_configs)).length ∧
      output_infos.length =
        (mapping_steps (walk_steps manager config.logical_monitor_configs)).length ∧
      ∀ k step,
        (mapping_steps (walk_steps manager config.logical_monitor_configs))[k]? = some step →
        ∃ lmc pos monitor mode cm crtc mc,
          step = WalkStep.map_crtc lmc pos monitor mode cm ∧
          lmc ∈ config.logical_monitor_configs ∧
          lmc.monitor_configs[pos]? = some mc ∧
          manager.get_monitor_from_spec mc.monitor_spec = some monitor ∧
          manager.get_mode_from_spec monitor mc.mode_spec = some mode ∧
          cm ∈ manager.mode_crtc_modes monitor mode ∧
          find_unassigned_crtc manager cm.output (crtc_infos.take k) = some crtc ∧
          crtc_infos[k]? = some (mapping_crtc_info crtc lmc cm) ∧
          output_infos[k]? = some (mapping_output_info manager lmc pos monitor cm) := by
  rw [assign_eq_run_walk] at h
  obtain ⟨cs, os, harr, hlc, hlo, hget⟩ := run_walk_entries manager _ _ _ h
  simp only [List.nil_append, Prod.mk.injEq] at harr
  obtain ⟨rfl, rfl⟩ := harr
  refine ⟨hlc, hlo, ?_⟩
  intro k step hk
  obtain ⟨lmc, pos, monitor, mode, cm, crtc, hst, hf, hc, ho⟩ := hget k step hk
  have hmem := mem_of_mapping_steps_getElem hk
  rw [hst] at hmem
  obtain ⟨hl, mc, h1, h2, h3, h4⟩ := map_crtc_mem_walk_steps hmem
  exact ⟨lmc, pos, monitor, mode, cm, crtc, mc, hst, hl, h1, h2, h3, h4,
    by simpa using hf, hc, ho⟩

/-- The entry at an index of a successful assignment, with the mapping step it comes
from. -/
theorem assign_entries_at (manager : MetaMonitorManager) (config : MetaMonitorsConfig)
    (crtc_infos : List MetaCrtcInfo) (output_infos : List MetaOutputInfo)
    (h : meta_monitor_config_manager_assign manager config =
      Except.ok (crtc_infos, output_infos))
    (k : Nat)
    (hk : k < (mapping_steps (walk_steps manager config.logical_monitor_configs)).length) :
    ∃ lmc pos monitor mode cm crtc mc,
      (mapping_steps (walk_steps manager config.logical_monitor_configs))[k]? =
        some (WalkStep.map_crtc lmc pos monitor mode cm) ∧
      lmc ∈ config.logical_monitor_configs ∧
      lmc.monitor_configs[pos]? = some mc ∧
      manager.get_monitor_from_spec mc.monitor_spec = some monitor ∧
      manager.get_mode_from_spec monitor mc.mode_spec = some mode ∧
      cm ∈ manager.mode_crtc_modes monitor mode ∧
      find_unassigned_crtc manager cm.output (crtc_infos.take k) = some crtc ∧
      crtc_infos[k]? = some (mapping_crtc_info crtc lmc cm) ∧
      output_infos[k]? = some (mapping_output_info manager lmc pos monitor cm) := by
  obtain ⟨_, _, hget⟩ := assign_entries manager config crtc_infos output_infos h
  have hstep := List.getElem?_eq_getElem hk
  obtain ⟨lmc, pos, monitor, mode, cm, crtc, mc, hst, h1, h2, h3, h4, h5, h6, h7, h8⟩ :=
    hget k _ hstep
  rw [hst] at hstep
  exact ⟨lmc, pos, monitor, mode, cm, crtc, mc, hstep, h1, h2, h3, h4, h5, h6, h7, h8⟩

theorem run_walk_output_infos (manager : MetaMonitorManager) (steps : List WalkStep)
    (arrays arrays1 : AssignArrays)
    (h : run_walk manager steps arrays = Except.ok arrays1) :
    arrays1.2.map (fun info => info.output) =
      arrays.2.map (fun info => info.output) ++ mapped_outputs steps := by
  induction steps generalizing arrays with
  | nil =>
    simp only [run_walk] at h
    cases h
    simp [mapped_outputs]
  | cons step rest ih =>
    simp only [run_walk] at h
    cases hs : step_exec manager step arrays with
    | error e => simp [hs] at h
    | ok arrays2 =>
      simp only [hs] at h
      rw [ih arrays2 h]
      rcases step_exec_ok hs with ⟨hout, rfl⟩ | ⟨o, ci, oi, hout, _, _, _, hoo, rfl⟩
      · simp [mapped_outputs, List.filterMap_cons, hout]
      · simp [mapped_outputs, List.filterMap_cons, hout, hoo]

/-! ## Outputs assigned more than once -/

/-- C11 as stated fails: PanelA is configured in two LogicalMonitorConfigs and two CRTCs
are free; the assignment succeeds, output 100 appears in two OutputAssignments and is
bound to CRTC 1000 and to CRTC 1001. -/
theorem assign_same_monitor_twice :
    meta_monitor_config_manager_assign laptop_and_external PanelA_twice =
        Except.ok assigned_PanelA_twice ∧
      assigned_PanelA_twice.2.map (fun info => info.output) = [100, 100] ∧
      assigned_PanelA_twice.1.map (fun info => (info.crtc, info.outputs)) =
        [(1000, [100]), (1001, [100])] := by
  refine ⟨by rfl, by rfl, by rfl⟩

/-- C11, amended: in a successful assignment the outputs of the OutputAssignments are the
outputs that the mappings of the walk target, in walk order; so when no output is
targeted by two mappings of the config, no output appears in more than one
OutputAssignment and none is bound to more than one CRTC. -/
theorem assign_outputs_are_mapped_outputs (manager : MetaMonitorManager)
    (config : MetaMonitorsConfig) (crtc_infos : List MetaCrtcInfo)
    (output_infos : List MetaOutputInfo)
    (h : meta_monitor_config_manager_assign manager config =
      Except.ok (crtc_infos, output_infos)) :
    output_infos.map (fun info => info.output) =
        mapped_outputs (walk_steps manager config.logical_monitor_configs) ∧
      crtc_infos.map (fun info => info.outputs) =
        (mapped_outputs (walk_steps manager config.logical_monitor_configs)).map
          (fun output => [output]) ∧
      ((mapped_outputs (walk_steps manager config.logical_monitor_configs)).Nodup →
        (output_infos.map (fun info => info.output)).Nodup ∧
        (crtc_infos.map (fun info => info.outputs)).Nodup) := by
  rw [assign_eq_run_walk] at h
  have h1 := run_walk_output_infos manager _ _ _ h
  have h2 := run_walk_outputs manager _ _ _ h
  simp only [List.map_nil, List.nil_append] at h1 h2
  refine ⟨h1, h2, ?_⟩
  intro hnodup
  rw [h1, h2]
  refine ⟨hnodup, List.Nodup.map ?_ hnodup⟩
  intro a b hab
  simpa using hab

/-- In the linear layout of PanelA and ExternalB the mappings target outputs 100 and 200,
and each appears in one OutputAssignment. -/
theorem assign_outputs_are_mapped_outputs_witness :
    meta_monitor_config_manager_assign laptop_and_external linear_PanelA_ExternalB =
        Except.ok assigned_PanelA_ExternalB ∧
      (mapped_outputs
        (walk_steps laptop_and_external linear_PanelA_ExternalB.logical_monitor_configs)).Nodup ∧
      (assigned_PanelA_ExternalB.2.map (fun info => info.output)).Nodup ∧
      (assigned_PanelA_ExternalB.1.map (fun info => info.outputs)).Nodup :=
  ⟨by rfl, by decide,
    ((assign_outputs_are_mapped_outputs laptop_and_external linear_PanelA_ExternalB
      assigned_PanelA_ExternalB.1 assigned_PanelA_ExternalB.2 (by rfl)).2.2 (by decide)).1,
    ((assign_outputs_are_mapped_outputs laptop_and_external linear_PanelA_ExternalB
      assigned_PanelA_ExternalB.1 assigned_PanelA_ExternalB.2 (by rfl)).2.2 (by decide)).2⟩

/-! ## First fit -/

theorem find_unassigned_crtc_loop_eq_some_iff (possible : List MetaCrtc)
    (crtc_infos : List MetaCrtcInfo) (crtc : MetaCrtc) :
    find_unassigned_crtc_loop possible crtc_infos = some crtc ↔
      ∃ pre post, possible = pre ++ crtc :: post ∧
        crtc ∉ crtc_infos.map (fun info => info.crtc) ∧
        ∀ c ∈ pre, c ∈ crtc_infos.map (fun info => info.crtc) := by
  induction possible with
  | nil => simp [find_unassigned_crtc_loop]
  | cons x rest ih =>
    unfold find_unassigned_crtc_loop
    by_cases hx : is_crtc_assigned x crtc_infos = true
    · rw [if_pos hx, ih]
      have hxm := (is_crtc_assigned_iff x crtc_infos).1 hx
      constructor
      · rintro ⟨pre, post, hsplit, hnot, hpre⟩
        refine ⟨x :: pre, post, by rw [hsplit]; rfl, hnot, ?_⟩
        intro c hc
        rcases List.mem_cons.1 hc with rfl | h1
        · exact hxm
        · exact hpre c h1
      · rintro ⟨pre, post, hsplit, hnot, hpre⟩
        cases pre with
        | nil =>
          simp only [List.nil_append, List.cons.injEq] at hsplit
          exact absurd (hsplit.1 ▸ hxm) hnot
        | cons y pre1 =>
          simp only [List.cons_append, List.cons.injEq] at hsplit
          exact ⟨pre1, post, hsplit.2, hnot,
            fun c hc => hpre c (List.mem_cons_of_mem _ hc)⟩
    · rw [if_neg hx]
      have hxm : x ∉ crtc_infos.map (fun info => info.crtc) :=
        fun hm => hx ((is_crtc_assigned_iff x crtc_infos).2 hm)
      constructor
      · intro h
        cases h
        exact ⟨[], rest, rfl, hxm, fun c hc => by cases hc⟩
      · rintro ⟨pre, post, hsplit, hnot, hpre⟩
        cases pre with
        | nil =>
          simp only [List.nil_append, List.cons.injEq] at hsplit
          rw [hsplit.1]
        | cons y pre1 =>
          simp only [List.cons_append, List.cons.injEq] at hsplit
          exact absurd (hsplit.1 ▸ hpre y (List.mem_cons_self _ _)) hxm

theorem find_unassigned_crtc_loop_eq_none_iff (possible : List MetaCrtc)
    (crtc_infos : List MetaCrtcInfo) :
    find_unassigned_crtc_loop possible crtc_infos = none ↔
      ∀ c ∈ possible, c ∈ crtc_infos.map (fun info => info.crtc) := by
  induction possible with
  | nil => simp [find_unassigned_crtc_loop]
  | cons x rest ih =>
    unfold find_unassigned_crtc_loop
    by_cases hx : is_crtc_assigned x crtc_infos = true
    · rw [if_pos hx, ih]
      have hxm := (is_crtc_assigned_iff x crtc_infos).1 hx
      constructor
      · intro hall c hc
        rcases List.mem_cons.1 hc with rfl | h1
        · exact hxm
        · exact hall c h1
      · intro hall c hc
        exact hall c (List.mem_cons_of_mem _ hc)
    · rw [if_neg hx]
      have hxm : x ∉ crtc_infos.map (fun info => info.crtc) :=
        fun hm => hx ((is_crtc_assigned_iff x crtc_infos).2 hm)
      constructor
      · intro h
        cases h
      · intro hall
        exact absurd (hall x (List.mem_cons_self _ _)) hxm

/-- C12: `find_unassigned_crtc` returns the first element, in list order, of the
possible-CRTC list of the output that is not the CRTC of an entry of `crtc_infos`, and
none exactly when every element of the list is the CRTC of an entry (so for an empty
list); in a successful assignment the CRTC of the CrtcAssignment at index `k` is what
`find_unassigned_crtc` returns for the output at index `k` and the CrtcAssignments
before index `k`. -/
theorem find_unassigned_crtc_first_fit (manager : MetaMonitorManager) :
    (∀ output crtc_infos crtc,
        find_unassigned_crtc manager output crtc_infos = some crtc ↔
          ∃ pre post, manager.possible_crtcs output = pre ++ crtc :: post ∧
            crtc ∉ crtc_infos.map (fun info => info.crtc) ∧
            ∀ c ∈ pre, c ∈ crtc_infos.map (fun info => info.crtc)) ∧
      (∀ output crtc_infos,
        find_unassigned_crtc manager output crtc_infos = none ↔
          ∀ c ∈ manager.possible_crtcs output, c ∈ crtc_infos.map (fun info => info.crtc)) ∧
      (∀ output crtc_infos, manager.possible_crtcs output = [] →
        find_unassigned_crtc manager output crtc_infos = none) ∧
      (∀ config crtc_infos output_infos,
        meta_monitor_config_manager_assign manager config =
          Except.ok (crtc_infos, output_infos) →
        ∀ k crtc_info output_info, crtc_infos[k]? = some crtc_info →
          output_infos[k]? = some output_info →
          find_unassigned_crtc manager output_info.output (crtc_infos.take k) =
            some crtc_info.crtc) := by
  refine ⟨?_, ?_, ?_, ?_⟩
  · intro output crtc_infos crtc
    exact find_unassigned_crtc_loop_eq_some_iff _ _ _
  · intro output crtc_infos
    exact find_unassigned_crtc_loop_eq_none_iff _ _
  · intro output crtc_infos hempty
    unfold find_unassigned_crtc
    rw [hempty]
    rfl
  · intro config crtc_infos output_infos h k crtc_info output_info hc ho
    have hlen := (assign_entries manager config crtc_infos output_infos h).1
    have hk : k < (mapping_steps
        (walk_steps manager config.logical_monitor_configs)).length := by
      rw [← hlen]
      exact (List.getElem?_eq_some_iff.1 hc).1
    obtain ⟨lmc, pos, monitor, mode, cm, crtc, mc, _, _, _, _, _, _, hfind, hci, hoi⟩ :=
      assign_entries_at manager config crtc_infos output_infos h k hk
    rw [hc, Option.some.injEq] at hci
    rw [ho, Option.some.injEq] at hoi
    subst hci
    subst hoi
    exact hfind

/-- The engine does not backtrack (C13): in the inventory `first_fit_trap`, output 100
can use CRTC 1000 or 1001 and output 200 only CRTC 1000; the linear layout of PanelA and
ExternalB maps output 100 and then output 200, and binding 100 to 1001 and 200 to 1000
serves both, yet `meta_monitor_config_manager_assign` fails with `NoAvailableCrtc`. -/
theorem assign_first_fit_rejects_solvable_config :
    first_fit_trap.possible_crtcs 100 = [1000, 1001] ∧
      first_fit_trap.possible_crtcs 200 = [1000] ∧
      config_resolves first_fit_trap linear_PanelA_ExternalB = true ∧
      mapped_outputs
        (walk_steps first_fit_trap linear_PanelA_ExternalB.logical_monitor_configs) =
        [100, 200] ∧
      (∃ binding : MetaOutput → MetaCrtc,
        (∀ output ∈ mapped_outputs
            (walk_steps first_fit_trap linear_PanelA_ExternalB.logical_monitor_configs),
          binding output ∈ first_fit_trap.possible_crtcs output) ∧
        ((mapped_outputs
          (walk_steps first_fit_trap
            linear_PanelA_ExternalB.logical_monitor_configs)).map binding).Nodup) ∧
      meta_monitor_config_manager_assign first_fit_trap linear_PanelA_ExternalB =
        Except.error (AssignError.NoAvailableCrtc spec_ExternalB) := by
  refine ⟨by rfl, by rfl, by rfl, by rfl,
    ⟨fun output => if output = 100 then 1001 else 1000, by decide, by decide⟩, by rfl⟩

/-! ## What does not influence the assignment -/

theorem step_exec_without_size_and_primary (manager : MetaMonitorManager) (step : WalkStep)
    (arrays : AssignArrays) :
    step_exec manager (step_without_size_and_primary step) arrays =
      step_exec manager step arrays := by
  cases step with
  | resolve_monitor mc => rfl
  | resolve_mode monitor mc => rfl
  | map_crtc lmc pos monitor mode cm =>
    simp only [step_without_size_and_primary, step_exec, assign_monitor_crtc,
      without_size_and_primary]
    cases find_unassigned_crtc manager cm.output arrays.1 <;> rfl

theorem run_walk_without_size_and_primary (manager : MetaMonitorManager)
    (steps : List WalkStep) (arrays : AssignArrays) :
    run_walk manager (steps.map step_without_size_and_primary) arrays =
      run_walk manager steps arrays := by
  induction steps generalizing arrays with
  | nil => rfl
  | cons step rest ih =>
    simp only [List.map_cons, run_walk, step_exec_without_size_and_primary]
    cases step_exec manager step arrays with
    | error e => rfl
    | ok arrays1 => exact ih arrays1

theorem monitor_config_steps_without_size_and_primary (manager : MetaMonitorManager)
    (lmc : MetaLogicalMonitorConfig) (pos : Nat) (mc : MetaMonitorConfig) :
    monitor_config_steps manager (without_size_and_primary lmc) pos mc =
      (monitor_config_steps manager lmc pos mc).map step_without_size_and_primary := by
  cases hm : manager.get_monitor_from_spec mc.monitor_spec with
  | none => simp [monitor_config_steps, hm, step_without_size_and_primary]
  | some monitor =>
    cases hmode : manager.get_mode_from_spec monitor mc.mode_spec with
    | none => simp [monitor_config_steps, hm, hmode, step_without_size_and_primary]
    | some mode =>
      simp only [monitor_config_steps, hm, hmode, List.map_cons, List.map_map,
        step_without_size_and_primary]
      rfl

theorem logical_monitor_steps_without_size_and_primary (manager : MetaMonitorManager)
    (lmc : MetaLogicalMonitorConfig) (pos : Nat) (monitor_configs : List MetaMonitorConfig) :
    logical_monitor_steps manager (without_size_and_primary lmc) pos monitor_configs =
      (logical_monitor_steps manager lmc pos monitor_configs).map
        step_without_size_and_primary := by
  induction monitor_configs generalizing pos with
  | nil => rfl
  | cons mc rest ih =>
    simp only [logical_monitor_steps, List.map_append,
      monitor_config_steps_without_size_and_primary, ih]

theorem walk_steps_without_size_and_primary (manager : MetaMonitorManager)
    (logical_monitor_configs : List MetaLogicalMonitorConfig) :
    walk_steps manager (logical_monitor_configs.map without_size_and_primary) =
      (walk_steps manager logical_monitor_configs).map step_without_size_and_primary := by
  induction logical_monitor_configs with
  | nil => rfl
  | cons lmc rest ih =>
    simp only [List.map_cons, walk_steps, List.map_append, ih]
    rw [← logical_monitor_steps_without_size_and_primary]
    rfl

/-- The assignment of a config is the assignment of the config with the widths, heights
and `is_primary` flags of its logical monitor configs blanked. -/
theorem assign_without_size_and_primary (manager : MetaMonitorManager)
    (config : MetaMonitorsConfig) :
    meta_monitor_config_manager_assign manager
        { logical_monitor_configs :=
            config.logical_monitor_configs.map without_size_and_primary } =
      meta_monitor_config_manager_assign manager config := by
  rw [assign_eq_run_walk, assign_eq_run_walk, walk_steps_without_size_and_primary,
    run_walk_without_size_and_primary]

/-- Two configs that differ only in widths, heights and `is_primary` flags of their
logical monitor configs are assigned alike. -/
theorem assign_eq_of_same_blanked (manager : MetaMonitorManager)
    (config other : MetaMonitorsConfig)
    (hsame : other.logical_monitor_configs.map without_size_and_primary =
      config.logical_monitor_configs.map without_size_and_primary) :
    meta_monitor_config_manager_assign manager other =
      meta_monitor_config_manager_assign manager config := by
  rw [← assign_without_size_and_primary manager other,
    ← assign_without_size_and_primary manager config, hsame]

/-! ## The fields of the assignment entries -/

/-- C14: every CrtcAssignment of a successful assignment comes from a mapping
(output, crtc_mode, x, y) of the mode of a MonitorConfig inside a LogicalMonitorConfig of
the config; its mode is `crtc_mode`, its `x` and `y` are the C `int` sums of the mapping
offset and the layout origin (the exact sums when they fit an `int`), its transform is
normal and its only output is the output of the mapping.  The widths, heights and
`is_primary` flags of the LogicalMonitorConfigs do not influence the assignment. -/
theorem assign_crtc_info_fields (manager : MetaMonitorManager) (config : MetaMonitorsConfig)
    (crtc_infos : List MetaCrtcInfo) (output_infos : List MetaOutputInfo)
    (h : meta_monitor_config_manager_assign manager config =
      Except.ok (crtc_infos, output_infos)) :
    (∀ (k : Nat) (crtc_info : MetaCrtcInfo), crtc_infos[k]? = some crtc_info →
        ∃ lmc pos monitor mode cm mc,
          (mapping_steps (walk_steps manager config.logical_monitor_configs))[k]? =
            some (WalkStep.map_crtc lmc pos monitor mode cm) ∧
          lmc ∈ config.logical_monitor_configs ∧
          lmc.monitor_configs[pos]? = some mc ∧
          manager.get_monitor_from_spec mc.monitor_spec = some monitor ∧
          manager.get_mode_from_spec monitor mc.mode_spec = some mode ∧
          cm ∈ manager.mode_crtc_modes monitor mode ∧
          crtc_info.mode = cm.crtc_mode ∧
          crtc_info.x = int_add cm.x lmc.layout.x ∧
          crtc_info.y = int_add cm.y lmc.layout.y ∧
          (is_int (cm.x + lmc.layout.x) → crtc_info.x = cm.x + lmc.layout.x) ∧
          (is_int (cm.y + lmc.layout.y) → crtc_info.y = cm.y + lmc.layout.y) ∧
          crtc_info.transform = MetaMonitorTransform.NORMAL ∧
          crtc_info.outputs = [cm.output]) ∧
      (∀ other : MetaMonitorsConfig,
        other.logical_monitor_configs.map without_size_and_primary =
          config.logical_monitor_configs.map without_size_and_primary →
        meta_monitor_config_manager_assign manager other =
          meta_monitor_config_manager_assign manager config) := by
  refine ⟨?_, fun other hsame => assign_eq_of_same_blanked manager config other hsame⟩
  intro k crtc_info hc
  have hlen := (assign_entries manager config crtc_infos output_infos h).1
  have hk : k < (mapping_steps
      (walk_steps manager config.logical_monitor_configs)).length := by
    rw [← hlen]
    exact (List.getElem?_eq_some_iff.1 hc).1
  obtain ⟨lmc, pos, monitor, mode, cm, crtc, mc, hst, h1, h2, h3, h4, h5, _, hci, _⟩ :=
    assign_entries_at manager config crtc_infos output_infos h k hk
  rw [hc, Option.some.injEq] at hci
  subst hci
  exact ⟨lmc, pos, monitor, mode, cm, mc, hst, h1, h2, h3, h4, h5, rfl, rfl, rfl,
    fun hx => int_wrap_of_is_int hx, fun hy => int_wrap_of_is_int hy, rfl, rfl⟩

/-- In the assignment of the linear layout of PanelA and ExternalB, the CrtcAssignment at
index 1 comes from the mapping of output 200 at offset (0, 0) inside the
LogicalMonitorConfig at (1920, 0): mode 600 at (1920, 0), transform normal. -/
theorem assign_crtc_info_fields_witness :
    meta_monitor_config_manager_assign laptop_and_external linear_PanelA_ExternalB =
        Except.ok assigned_PanelA_ExternalB ∧
      ∃ lmc pos monitor mode cm mc,
        (mapping_steps
          (walk_steps laptop_and_external
            linear_PanelA_ExternalB.logical_monitor_configs))[1]? =
          some (WalkStep.map_crtc lmc pos monitor mode cm) ∧
        lmc ∈ linear_PanelA_ExternalB.logical_monitor_configs ∧
        lmc.monitor_configs[pos]? = some mc ∧
        laptop_and_external.get_monitor_from_spec mc.monitor_spec = some monitor ∧
        laptop_and_external.get_mode_from_spec monitor mc.mode_spec = some mode ∧
        cm ∈ laptop_and_external.mode_crtc_modes monitor mode ∧
        (600 : MetaCrtcMode) = cm.crtc_mode ∧
        (1920 : Int) = int_add cm.x lmc.layout.x ∧
        (0 : Int) = int_add cm.y lmc.layout.y ∧
        (is_int (cm.x + lmc.layout.x) → (1920 : Int) = cm.x + lmc.layout.x) ∧
        (is_int (cm.y + lmc.layout.y) → (0 : Int) = cm.y + lmc.layout.y) ∧
        MetaMonitorTransform.NORMAL = MetaMonitorTransform.NORMAL ∧
        [200] = [cm.output] :=
  ⟨by rfl,
    (assign_crtc_info_fields laptop_and_external linear_PanelA_ExternalB
      assigned_PanelA_ExternalB.1 assigned_PanelA_ExternalB.2 (by rfl)).1 1
      { crtc := 1001, mode := 600, x := 1920, y := 0,
        transform := MetaMonitorTransform.NORMAL, outputs := [200] } (by rfl)⟩

/-- C15: every OutputAssignment of a successful assignment comes from a mapping of the
mode of the MonitorConfig at some position of a LogicalMonitorConfig of the config, for
the output of that mapping; its `is_primary` is true exactly when that position is the
first one and the main output of the resolved monitor is that output. -/
theorem assign_output_info_primary (manager : MetaMonitorManager)
    (config : MetaMonitorsConfig)
    (crtc_infos : List MetaCrtcInfo) (output_infos : List MetaOutputInfo)
    (h : meta_monitor_config_manager_assign manager config =
      Except.ok (crtc_infos, output_infos)) :
    ∀ (k : Nat) (output_info : MetaOutputInfo), output_infos[k]? = some output_info →
      ∃ lmc pos monitor mode cm mc,
        (mapping_steps (walk_steps manager config.logical_monitor_configs))[k]? =
          some (WalkStep.map_crtc lmc pos monitor mode cm) ∧
        lmc ∈ config.logical_monitor_configs ∧
        lmc.monitor_configs[pos]? = some mc ∧
        manager.get_monitor_from_spec mc.monitor_spec = some monitor ∧
        manager.get_mode_from_spec monitor mc.mode_spec = some mode ∧
        cm ∈ manager.mode_crtc_modes monitor mode ∧
        output_info.output = cm.output ∧
        (output_info.is_primary = true ↔
          pos = 0 ∧ manager.get_main_output monitor = output_info.output) := by
  intro k output_info ho
  have hlen := (assign_entries manager config crtc_infos output_infos h).2.1
  have hk : k < (mapping_steps
      (walk_steps manager config.logical_monitor_configs)).length := by
    rw [← hlen]
    exact (List.getElem?_eq_some_iff.1 ho).1
  obtain ⟨lmc, pos, monitor, mode, cm, crtc, mc, hst, h1, h2, h3, h4, h5, _, _, hoi⟩ :=
    assign_entries_at manager config crtc_infos output_infos h k hk
  rw [ho, Option.some.injEq] at hoi
  subst hoi
  refine ⟨lmc, pos, monitor, mode, cm, mc, hst, h1, h2, h3, h4, h5, rfl, ?_⟩
  simp [mapping_output_info]

/-- In the assignment of the linear layout of PanelA and ExternalB, the OutputAssignment
at index 0 is for output 100, the main output of PanelA, the first monitor of its
LogicalMonitorConfig: it is primary. -/
theorem assign_output_info_primary_witness :
    meta_monitor_config_manager_assign laptop_and_external linear_PanelA_ExternalB =
        Except.ok assigned_PanelA_ExternalB ∧
      ∃ lmc pos monitor mode cm mc,
        (mapping_steps
          (walk_steps laptop_and_external
            linear_PanelA_ExternalB.logical_monitor_configs))[0]? =
          some (WalkStep.map_crtc lmc pos monitor mode cm) ∧
        lmc ∈ linear_PanelA_ExternalB.logical_monitor_configs ∧
        lmc.monitor_configs[pos]? = some mc ∧
        laptop_and_external.get_monitor_from_spec mc.monitor_spec = some monitor ∧
        laptop_and_external.get_mode_from_spec monitor mc.mode_spec = some mode ∧
        cm ∈ laptop_and_external.mode_crtc_modes monitor mode ∧
        (100 : MetaOutput) = cm.output ∧
        (true = true ↔ pos = 0 ∧ laptop_and_external.get_main_output monitor = 100) :=
  ⟨by rfl,
    assign_output_info_primary laptop_and_external linear_PanelA_ExternalB
      assigned_PanelA_ExternalB.1 assigned_PanelA_ExternalB.2 (by rfl) 0
      { output := 100, is_primary := true, is_presentation := false,
        is_underscanning := false } (by rfl)⟩

/-- C16: every OutputAssignment of a successful assignment comes from a mapping inside a
LogicalMonitorConfig of the config; its `is_presentation` is the `is_presentation` flag
of that LogicalMonitorConfig and its `is_underscanning` is the `is_underscanning` value
of its output in the inventory. -/
theorem assign_output_info_flags (manager : MetaMonitorManager)
    (config : MetaMonitorsConfig)
    (crtc_infos : List MetaCrtcInfo) (output_infos : List MetaOutputInfo)
    (h : meta_monitor_config_manager_assign manager config =
      Except.ok (crtc_infos, output_infos)) :
    ∀ (k : Nat) (output_info : MetaOutputInfo), output_infos[k]? = some output_info →
      ∃ lmc pos monitor mode cm mc,
        (mapping_steps (walk_steps manager config.logical_monitor_configs))[k]? =
          some (WalkStep.map_crtc lmc pos monitor mode cm) ∧
        lmc ∈ config.logical_monitor_configs ∧
        lmc.monitor_configs[pos]? = some mc ∧
        manager.get_monitor_from_spec mc.monitor_spec = some monitor ∧
        manager.get_mode_from_spec monitor mc.mode_spec = some mode ∧
        cm ∈ manager.mode_crtc_modes monitor mode ∧
        output_info.output = cm.output ∧
        output_info.is_presentation = lmc.is_presentation ∧
        output_info.is_underscanning = manager.is_underscanning output_info.output := by
  intro k output_info ho
  have hlen := (assign_entries manager config crtc_infos output_infos h).2.1
  have hk : k < (mapping_steps
      (walk_steps manager config.logical_monitor_configs)).length := by
    rw [← hlen]
    exact (List.getElem?_eq_some_iff.1 ho).1
  obtain ⟨lmc, pos, monitor, mode, cm, crtc, mc, hst, h1, h2, h3, h4, h5, _, _, hoi⟩ :=
    assign_entries_at manager config crtc_infos output_infos h k hk
  rw [ho, Option.some.injEq] at hoi
  subst hoi
  exact ⟨lmc, pos, monitor, mode, cm, mc, hst, h1, h2, h3, h4, h5, rfl, rfl, rfl⟩

/-- A presentation group of PanelA and ExternalB on an inventory where output 200
underscans: both OutputAssignments are `is_presentation`, and only the one of output 200
is `is_underscanning`. -/
theorem assign_output_info_flags_witness :
    meta_monitor_config_manager_assign underscanning_external presentation_group =
        Except.ok assigned_presentation_group ∧
      ∃ lmc pos monitor mode cm mc,
        (mapping_steps
          (walk_steps underscanning_external
            presentation_group.logical_monitor_configs))[1]? =
          some (WalkStep.map_crtc lmc pos monitor mode cm) ∧
        lmc ∈ presentation_group.logical_monitor_configs ∧
        lmc.monitor_configs[pos]? = some mc ∧
        underscanning_external.get_monitor_from_spec mc.monitor_spec = some monitor ∧
        underscanning_external.get_mode_from_spec monitor mc.mode_spec = some mode ∧
        cm ∈ underscanning_external.mode_crtc_modes monitor mode ∧
        (200 : MetaOutput) = cm.output ∧
        true = lmc.is_presentation ∧
        true = underscanning_external.is_underscanning 200 :=
  ⟨by rfl,
    assign_output_info_flags underscanning_external presentation_group
      assigned_presentation_group.1 assigned_presentation_group.2 (by rfl) 1
      { output := 200, is_primary := false, is_presentation := true,
        is_underscanning := true } (by rfl)⟩

/-! ## Extending a config -/

theorem walk_steps_append (manager : MetaMonitorManager)
    (l1 l2 : List MetaLogicalMonitorConfig) :
    walk_steps manager (l1 ++ l2) = walk_steps manager l1 ++ walk_steps manager l2 := by
  induction l1 with
  | nil => rfl
  | cons lmc rest ih =>
    rw [List.cons_append]
    simp only [walk_steps]
    rw [ih, List.append_assoc]

/-- C17: for every split of the logical monitor configs of a config into `l1 ++ l2`, if
the assignment of `l1 ++ l2` succeeds then the assignment of `l1` succeeds and its two
lists are initial segments of the lists for `l1 ++ l2`; and if the assignment of `l1`
fails, the assignment of `l1 ++ l2` fails with the same error. -/
theorem assign_stable_under_extension (manager : MetaMonitorManager)
    (l1 l2 : List MetaLogicalMonitorConfig) :
    (∀ crtc_infos output_infos,
        meta_monitor_config_manager_assign manager { logical_monitor_configs := l1 ++ l2 } =
          Except.ok (crtc_infos, output_infos) →
        ∃ crtc_infos1 output_infos1 crtc_infos2 output_infos2,
          meta_monitor_config_manager_assign manager { logical_monitor_configs := l1 } =
            Except.ok (crtc_infos1, output_infos1) ∧
          crtc_infos = crtc_infos1 ++ crtc_infos2 ∧
          output_infos = output_infos1 ++ output_infos2) ∧
      (∀ e,
        meta_monitor_config_manager_assign manager { logical_monitor_configs := l1 } =
          Except.error e →
        meta_monitor_config_manager_assign manager { logical_monitor_configs := l1 ++ l2 } =
          Except.error e) := by
  constructor
  · intro crtc_infos output_infos h
    rw [assign_eq_run_walk] at h
    simp only [walk_steps_append, run_walk_append] at h
    cases h1 : run_walk manager (walk_steps manager l1) ([], []) with
    | error e => simp [h1] at h
    | ok arrays1 =>
      simp only [h1] at h
      obtain ⟨cs, os, harr, _, _, _⟩ := run_walk_entries manager _ _ _ h
      simp only [Prod.mk.injEq] at harr
      refine ⟨arrays1.1, arrays1.2, cs, os, ?_, harr.1, harr.2⟩
      rw [assign_eq_run_walk]
      exact h1
  · intro e h
    rw [assign_eq_run_walk] at h
    rw [assign_eq_run_walk]
    simp only [walk_steps_append, run_walk_append] at h ⊢
    simp only [h]

/-- PanelA alone is assigned, and the assignment of PanelA followed by ExternalB starts
with the same entries; PanelA at a mode it does not have fails with `InvalidMode`, and so
does the same config followed by a monitor that is not connected. -/
theorem assign_stable_under_extension_witness :
    (∃ crtc_infos1 output_infos1 crtc_infos2 output_infos2,
        meta_monitor_config_manager_assign laptop_and_external
            { logical_monitor_configs :=
                [ { layout := ⟨0, 0, 1920, 1080⟩, monitor_configs := [config_PanelA],
                    is_primary := true, is_presentation := false } ] } =
          Except.ok (crtc_infos1, output_infos1) ∧
        assigned_PanelA_ExternalB.1 = crtc_infos1 ++ crtc_infos2 ∧
        assigned_PanelA_ExternalB.2 = output_infos1 ++ output_infos2) ∧
      meta_monitor_config_manager_assign laptop_and_external
          { logical_monitor_configs :=
              [ { layout := ⟨0, 0, 800, 600⟩,
                  monitor_configs :=
                    [{ monitor_spec := spec_PanelA, mode_spec := ⟨800, 600, 60⟩ }],
                  is_primary := true, is_presentation := false } ] ++
              [ { layout := ⟨800, 0, 1024, 768⟩,
                  monitor_configs :=
                    [{ monitor_spec := spec_Unplugged, mode_spec := ⟨1024, 768, 60⟩ }],
                  is_primary := false, is_presentation := false } ] } =
        Except.error (AssignError.InvalidMode ⟨800, 600, 60⟩ spec_PanelA) :=
  ⟨(assign_stable_under_extension laptop_and_external
      [ { layout := ⟨0, 0, 1920, 1080⟩, monitor_configs := [config_PanelA],
          is_primary := true, is_presentation := false } ]
      [ { layout := ⟨1920, 0, 2560, 1440⟩, monitor_configs := [config_ExternalB],
          is_primary := false, is_presentation := false } ]).1
      assigned_PanelA_ExternalB.1 assigned_PanelA_ExternalB.2 (by rfl),
    (assign_stable_under_extension laptop_and_external
      [ { layout := ⟨0, 0, 800, 600⟩,
          monitor_configs := [{ monitor_spec := spec_PanelA, mode_spec := ⟨800, 600, 60⟩ }],
          is_primary := true, is_presentation := false } ]
      [ { layout := ⟨800, 0, 1024, 768⟩,
          monitor_configs :=
            [{ monitor_spec := spec_Unplugged, mode_spec := ⟨1024, 768, 60⟩ }],
          is_primary := false, is_presentation := false } ]).2
      (AssignError.InvalidMode ⟨800, 600, 60⟩ spec_PanelA) (by rfl)⟩

/-! ## No monitor of positive area -/

/-- C20: `find_monitor_with_highest_preferred_resolution` returns no monitor exactly
when no monitor of the inventory has a preferred mode of positive area (the C `int`
product `width * height`), so for an empty inventory and for one whose areas are all 0;
a monitor it returns is in the inventory, has positive area, and no monitor of the
inventory has a larger area.  So `find_primary_monitor` yields no monitor for
`zero_area_inventory`, which is not empty and reports no primary and no laptop panel. -/
theorem find_monitor_with_highest_preferred_resolution_none_iff
    (manager : MetaMonitorManager) :
    (find_monitor_with_highest_preferred_resolution manager = none ↔
        ∀ m ∈ manager.get_monitors, preferred_area manager m ≤ 0) ∧
      (manager.get_monitors = [] →
        find_monitor_with_highest_preferred_resolution manager = none) ∧
      (∀ m, find_monitor_with_highest_preferred_resolution manager = some m →
        m ∈ manager.get_monitors ∧ 0 < preferred_area manager m ∧
        ∀ m1 ∈ manager.get_monitors, preferred_area manager m1 ≤ preferred_area manager m) ∧
      ((∃ m ∈ manager.get_monitors, 0 < preferred_area manager m) →
        ∃ m, find_monitor_with_highest_preferred_resolution manager = some m) ∧
      (zero_area_inventory.get_monitors ≠ [] ∧
        zero_area_inventory.get_primary_monitor = none ∧
        zero_area_inventory.get_laptop_panel = none ∧
        (∀ m ∈ zero_area_inventory.get_monitors, preferred_area zero_area_inventory m = 0) ∧
        find_primary_monitor zero_area_inventory = none) := by
  have hspec := find_monitor_with_highest_preferred_resolution_loop_spec manager
    manager.get_monitors 0 none
  have hpos : (∃ m ∈ manager.get_monitors, 0 < preferred_area manager m) →
      ∃ m, find_monitor_with_highest_preferred_resolution manager = some m ∧
        m ∈ manager.get_monitors ∧ 0 < preferred_area manager m ∧
        ∀ m1 ∈ manager.get_monitors,
          preferred_area manager m1 ≤ preferred_area manager m := by
    intro hex
    obtain ⟨pre, m, post, hsplit, hres, hlt, hmax, _⟩ := hspec.2 hex
    refine ⟨m, hres, ?_, hlt, hmax⟩
    rw [hsplit]
    simp
  have hnone : (∀ m ∈ manager.get_monitors, preferred_area manager m ≤ 0) →
      find_monitor_with_highest_preferred_resolution manager = none := hspec.1
  refine ⟨⟨?_, hnone⟩, ?_, ?_, ?_, ?_⟩
  · intro hres m hm
    by_contra hcon
    obtain ⟨m1, hm1, _⟩ := hpos ⟨m, hm, by omega⟩
    rw [hres] at hm1
    cases hm1
  · intro hempty
    apply hnone
    rw [hempty]
    intro m hm
    cases hm
  · intro m hres
    by_cases hex : ∃ m ∈ manager.get_monitors, 0 < preferred_area manager m
    · obtain ⟨m1, hm1, h1, h2, h3⟩ := hpos hex
      rw [hres, Option.some.injEq] at hm1
      subst hm1
      exact ⟨h1, h2, h3⟩
    · have hall : ∀ m ∈ manager.get_monitors, preferred_area manager m ≤ 0 := by
        intro m1 hm1
        by_contra hcon
        exact hex ⟨m1, hm1, by omega⟩
      rw [hnone hall] at hres
      cases hres
  · intro hex
    obtain ⟨m, hm, _⟩ := hpos hex
    exact ⟨m, hm⟩
  · refine ⟨by decide, by rfl, by rfl, by decide, by rfl⟩

/-! ## Tiling of the linear layout -/

theorem linear_layout_mem (manager : MetaMonitorManager) (x : Int)
    (monitors : List MetaMonitor) (l : MetaLogicalMonitorConfig)
    (h : l ∈ linear_layout manager x monitors) :
    l.layout.y = 0 ∧ l.monitor_configs.length = 1 ∧
      ∃ m ∈ monitors,
        l.monitor_configs =
          [create_monitor_config manager m (manager.get_preferred_mode m)] := by
  induction monitors generalizing x with
  | nil => simp [linear_layout] at h
  | cons m rest ih =>
    simp only [linear_layout, List.mem_cons] at h
    rcases h with rfl | h
    · rw [create_preferred_logical_monitor_config_eq]
      exact ⟨rfl, rfl, m, List.mem_cons_self _ _, rfl⟩
    · obtain ⟨h1, h2, m1, hm1, h3⟩ := ih _ h
      exact ⟨h1, h2, m1, List.mem_cons_of_mem _ hm1, h3⟩

theorem linear_layout_head_x (manager : MetaMonitorManager) (x : Int)
    (monitors : List MetaMonitor) (l : MetaLogicalMonitorConfig)
    (h : (linear_layout manager x monitors)[0]? = some l) : l.layout.x = x := by
  cases monitors with
  | nil => simp [linear_layout] at h
  | cons m rest =>
    simp only [linear_layout, List.getElem?_cons_zero, Option.some.injEq] at h
    subst h
    rw [create_preferred_logical_monitor_config_eq]

theorem linear_layout_consecutive (manager : MetaMonitorManager) (x : Int)
    (monitors : List MetaMonitor) (j : Nat) (l1 l2 : MetaLogicalMonitorConfig)
    (h1 : (linear_layout manager x monitors)[j]? = some l1)
    (h2 : (linear_layout manager x monitors)[j + 1]? = some l2) :
    l2.layout.x = int_add l1.layout.x l1.layout.width := by
  induction monitors generalizing x j with
  | nil => simp [linear_layout] at h1
  | cons m rest ih =>
    simp only [linear_layout, List.getElem?_cons_succ] at h2
    cases j with
    | zero =>
      simp only [linear_layout, List.getElem?_cons_zero, Option.some.injEq] at h1
      subst h1
      rw [linear_layout_head_x manager _ rest l2 h2,
        create_preferred_logical_monitor_config_eq]
    | succ i =>
      simp only [linear_layout, List.getElem?_cons_succ] at h1
      exact ih _ i h1 h2

theorem widths_before_succ (logical_monitor_configs : List MetaLogicalMonitorConfig)
    (k : Nat) (l : MetaLogicalMonitorConfig)
    (h : logical_monitor_configs[k]? = some l) :
    widths_before logical_monitor_configs (k + 1) =
      widths_before logical_monitor_configs k + l.layout.width := by
  unfold widths_before
  rw [List.take_succ, h]
  simp

/-- When every logical monitor config starts where the one before it ends, the first
starts at 0 and the sums of the widths fit an `int`, each starts at the sum of the widths
before it. -/
theorem x_eq_widths_before (logical_monitor_configs : List MetaLogicalMonitorConfig)
    (hhead : ∀ l, logical_monitor_configs[0]? = some l → l.layout.x = 0)
    (hnext : ∀ (k : Nat) (l1 l2 : MetaLogicalMonitorConfig),
      logical_monitor_configs[k]? = some l1 → logical_monitor_configs[k + 1]? = some l2 →
      l2.layout.x = int_add l1.layout.x l1.layout.width ∨
        l2.layout.x = l1.layout.x + l1.layout.width)
    (hfit : ∀ k, k ≤ logical_monitor_configs.length →
      is_int (widths_before logical_monitor_configs k))
    (k : Nat) (l : MetaLogicalMonitorConfig) (h : logical_monitor_configs[k]? = some l) :
    l.layout.x = widths_before logical_monitor_configs k := by
  induction k generalizing l with
  | zero =>
    rw [hhead l h]
    simp [widths_before]
  | succ j ih =>
    have hlt : j + 1 < logical_monitor_configs.length := (List.getElem?_eq_some_iff.1 h).1
    have hj : j < logical_monitor_configs.length := by omega
    have hprev := List.getElem?_eq_getElem hj
    have hx := ih _ hprev
    have hsum := widths_before_succ logical_monitor_configs j _ hprev
    have hint := hfit (j + 1) (by omega)
    rw [hsum, ← hx] at hint
    rw [hsum, ← hx]
    rcases hnext j _ l hprev h with hw | he
    · rw [hw]
      exact int_wrap_of_is_int hint
    · exact he

theorem widths_before_mono (logical_monitor_configs : List MetaLogicalMonitorConfig)
    (hpos : ∀ l ∈ logical_monitor_configs, 0 < l.layout.width) (a b : Nat) (hab : a ≤ b)
    (hb : b ≤ logical_monitor_configs.length) :
    widths_before logical_monitor_configs a ≤ widths_before logical_monitor_configs b := by
  induction b with
  | zero =>
    have : a = 0 := by omega
    rw [this]
  | succ c ih =>
    by_cases hac : a = c + 1
    · rw [hac]
    · have hc : c < logical_monitor_configs.length := by omega
      have hget := List.getElem?_eq_getElem hc
      have hw := hpos _ (List.getElem?_mem hget)
      rw [widths_before_succ logical_monitor_configs c _ hget]
      have := ih (by omega) (by omega)
      omega

/-- A config returned by `meta_monitor_config_manager_create_linear` is the primary
monitor at the origin followed by the linear layout of the other monitors. -/
theorem create_linear_some (config_manager : MetaMonitorConfigManager)
    (config : MetaMonitorsConfig)
    (h : meta_monitor_config_manager_create_linear config_manager = some config) :
    ∃ primary_monitor,
      find_primary_monitor config_manager.monitor_manager = some primary_monitor ∧
      config.logical_monitor_configs =
        { layout :=
            { x := 0, y := 0
              width := preferred_width config_manager.monitor_manager primary_monitor
              height := preferred_height config_manager.monitor_manager primary_monitor }
          monitor_configs :=
            [create_monitor_config config_manager.monitor_manager primary_monitor
              (config_manager.monitor_manager.get_preferred_mode primary_monitor)]
          is_primary := true
          is_presentation := false } ::
          linear_layout config_manager.monitor_manager
            (preferred_width config_manager.monitor_manager primary_monitor)
            (other_monitors config_manager.monitor_manager primary_monitor) := by
  cases hp : find_primary_monitor config_manager.monitor_manager with
  | none =>
    unfold meta_monitor_config_manager_create_linear at h
    simp [hp] at h
  | some primary_monitor =>
    rw [create_linear_eq config_manager primary_monitor hp, Option.some.injEq] at h
    exact ⟨primary_monitor, rfl, by rw [← h]⟩

/-- C18: in a config returned by `meta_monitor_config_manager_create_linear` every
LogicalMonitorConfig has `y = 0` and exactly one MonitorConfig, and each one after the
first starts where the one before it ends: its `x` is the C `int` sum of the `x` and the
width of the previous one, the exact sum when that fits an `int`.  When moreover every
width is positive and the sums of the widths fit an `int`, an earlier rectangle ends no
later than a later one begins, so the rectangles are pairwise disjoint. -/
theorem create_linear_tiles_x_axis (config_manager : MetaMonitorConfigManager)
    (config : MetaMonitorsConfig)
    (h : meta_monitor_config_manager_create_linear config_manager = some config) :
    (∀ l ∈ config.logical_monitor_configs, l.layout.y = 0 ∧ l.monitor_configs.length = 1) ∧
      (∀ (k : Nat) (l1 l2 : MetaLogicalMonitorConfig),
        config.logical_monitor_configs[k]? = some l1 →
        config.logical_monitor_configs[k + 1]? = some l2 →
        (k = 0 → l2.layout.x = l1.layout.x + l1.layout.width) ∧
        (k ≠ 0 → l2.layout.x = int_add l1.layout.x l1.layout.width) ∧
        (is_int (l1.layout.x + l1.layout.width) →
          l2.layout.x = l1.layout.x + l1.layout.width)) ∧
      ((∀ l ∈ config.logical_monitor_configs, 0 < l.layout.width) →
        (∀ k, k ≤ config.logical_monitor_configs.length →
          is_int (widths_before config.logical_monitor_configs k)) →
        ∀ (i j : Nat) (l1 l2 : MetaLogicalMonitorConfig), i < j →
          config.logical_monitor_configs[i]? = some l1 →
          config.logical_monitor_configs[j]? = some l2 →
          l1.layout.x + l1.layout.width ≤ l2.layout.x ∧
          rectangles_disjoint l1.layout l2.layout) := by
  obtain ⟨p, _, hcfg⟩ := create_linear_some config_manager config h
  have hnext : ∀ (k : Nat) (l1 l2 : MetaLogicalMonitorConfig),
      config.logical_monitor_configs[k]? = some l1 →
      config.logical_monitor_configs[k + 1]? = some l2 →
      (k = 0 → l2.layout.x = l1.layout.x + l1.layout.width) ∧
      (k ≠ 0 → l2.layout.x = int_add l1.layout.x l1.layout.width) := by
    intro k l1 l2 h1 h2
    rw [hcfg] at h1 h2
    simp only [List.getElem?_cons_succ] at h2
    cases k with
    | zero =>
      simp only [List.getElem?_cons_zero, Option.some.injEq] at h1
      subst h1
      refine ⟨fun _ => ?_, fun hk => absurd rfl hk⟩
      rw [linear_layout_head_x _ _ _ l2 h2]
      simp
    | succ i =>
      simp only [List.getElem?_cons_succ] at h1
      exact ⟨fun hk => by omega, fun _ => linear_layout_consecutive _ _ _ i l1 l2 h1 h2⟩
  have hhead : ∀ l, config.logical_monitor_configs[0]? = some l → l.layout.x = 0 := by
    intro l hl
    rw [hcfg] at hl
    simp only [List.getElem?_cons_zero, Option.some.injEq] at hl
    subst hl
    rfl
  refine ⟨?_, ?_, ?_⟩
  · intro l hl
    rw [hcfg] at hl
    rcases List.mem_cons.1 hl with rfl | hl
    · exact ⟨rfl, rfl⟩
    · obtain ⟨h1, h2, _⟩ := linear_layout_mem _ _ _ l hl
      exact ⟨h1, h2⟩
  · intro k l1 l2 h1 h2
    obtain ⟨hz, hnz⟩ := hnext k l1 l2 h1 h2
    refine ⟨hz, hnz, ?_⟩
    intro hint
    by_cases hk : k = 0
    · exact hz hk
    · rw [hnz hk]
      exact int_wrap_of_is_int hint
  · intro hpos hfit i j l1 l2 hij h1 h2
    have hx : ∀ (k : Nat) (l : MetaLogicalMonitorConfig),
        config.logical_monitor_configs[k]? = some l →
        l.layout.x = widths_before config.logical_monitor_configs k := by
      intro k l hl
      refine x_eq_widths_before config.logical_monitor_configs hhead ?_ hfit k l hl
      intro k1 a b ha hb
      obtain ⟨hz, hnz⟩ := hnext k1 a b ha hb
      by_cases hk : k1 = 0
      · exact Or.inr (hz hk)
      · exact Or.inl (hnz hk)
    have hj : j < config.logical_monitor_configs.length :=
      (List.getElem?_eq_some_iff.1 h2).1
    have hle : l1.layout.x + l1.layout.width ≤ l2.layout.x := by
      rw [hx i l1 h1, hx j l2 h2, ← widths_before_succ _ i l1 h1]
      exact widths_before_mono _ hpos (i + 1) j (by omega) (by omega)
    exact ⟨hle, Or.inl hle⟩

/-- In the linear layout of PanelA and ExternalB, PanelA ends at x = 1920 where ExternalB
begins, and the two rectangles are disjoint. -/
theorem create_linear_tiles_x_axis_witness :
    meta_monitor_config_manager_create_linear laptop_and_external_manager =
        some linear_PanelA_ExternalB ∧
      ((0 : Int) + 1920 ≤ 1920 ∧
        rectangles_disjoint ⟨0, 0, 1920, 1080⟩ ⟨1920, 0, 2560, 1440⟩) :=
  ⟨by rfl,
    (create_linear_tiles_x_axis laptop_and_external_manager linear_PanelA_ExternalB
      (by rfl)).2.2 (by decide) (by decide) 0 1
      { layout := ⟨0, 0, 1920, 1080⟩, monitor_configs := [config_PanelA],
        is_primary := true, is_presentation := false }
      { layout := ⟨1920, 0, 2560, 1440⟩, monitor_configs := [config_ExternalB],
        is_primary := false, is_presentation := false }
      (by decide) (by rfl) (by rfl)⟩

/-! ## Generated configs against their inventory -/

/-- When all lookups of a config resolve, its assignment can only fail for want of a
CRTC. -/
theorem assign_error_of_config_resolves (manager : MetaMonitorManager)
    (config : MetaMonitorsConfig) (hres : config_resolves manager config = true)
    (e : AssignError)
    (h : meta_monitor_config_manager_assign manager config = Except.error e) :
    ∃ monitor_spec, e = AssignError.NoAvailableCrtc monitor_spec := by
  rw [assign_eq_run_walk] at h
  obtain ⟨pre, step, post, arrays, hsplit, _, hstep⟩ :=
    (run_walk_error_iff manager _ _ e).1 h
  have hmem : step ∈ walk_steps manager config.logical_monitor_configs := by
    rw [hsplit]
    simp
  exact step_exec_error_of_resolves
    (walk_steps_resolve manager config.logical_monitor_configs hres step hmem) hstep

/-- A config returned by `meta_monitor_config_manager_create_fallback` holds the primary
monitor alone. -/
theorem create_fallback_some (config_manager : MetaMonitorConfigManager)
    (config : MetaMonitorsConfig)
    (h : meta_monitor_config_manager_create_fallback config_manager = some config) :
    ∃ primary_monitor,
      find_primary_monitor config_manager.monitor_manager = some primary_monitor ∧
      config.logical_monitor_configs =
        [ { layout :=
              { x := 0, y := 0
                width := preferred_width config_manager.monitor_manager primary_monitor
                height := preferred_height config_manager.monitor_manager primary_monitor }
            monitor_configs :=
              [create_monitor_config config_manager.monitor_manager primary_monitor
                (config_manager.monitor_manager.get_preferred_mode primary_monitor)]
            is_primary := true
            is_presentation := false } ] := by
  unfold meta_monitor_config_manager_create_fallback at h
  cases hp : find_primary_monitor config_manager.monitor_manager with
  | none => simp [hp] at h
  | some primary_monitor =>
    simp only [hp, create_preferred_logical_monitor_config_eq, List.nil_append,
      Option.some.injEq] at h
    exact ⟨primary_monitor, rfl, by rw [← h]⟩

/-- Every logical monitor config of a generated config holds the one monitor config
built for a monitor that is the selected primary or another listed monitor. -/
theorem generated_monitor_configs (config_manager : MetaMonitorConfigManager)
    (config : MetaMonitorsConfig)
    (h : meta_monitor_config_manager_create_linear config_manager = some config ∨
      meta_monitor_config_manager_create_fallback config_manager = some config) :
    ∀ lmc ∈ config.logical_monitor_configs,
      ∃ m, (find_primary_monitor config_manager.monitor_manager = some m ∨
          m ∈ config_manager.monitor_manager.get_monitors) ∧
        lmc.monitor_configs =
          [create_monitor_config config_manager.monitor_manager m
            (config_manager.monitor_manager.get_preferred_mode m)] := by
  intro lmc hl
  rcases h with h | h
  · obtain ⟨p, hp, hcfg⟩ := create_linear_some config_manager config h
    rw [hcfg] at hl
    rcases List.mem_cons.1 hl with rfl | hl
    · exact ⟨p, Or.inl hp, rfl⟩
    · obtain ⟨_, _, m, hm, hmc⟩ := linear_layout_mem _ _ _ lmc hl
      exact ⟨m, Or.inr (List.mem_filter.1 hm).1, hmc⟩
  · obtain ⟨p, hp, hcfg⟩ := create_fallback_some config_manager config h
    rw [hcfg, List.mem_singleton] at hl
    subst hl
    exact ⟨p, Or.inl hp, rfl⟩

/-- C19: a MonitorConfig built by `create_monitor_config` stores the spec of its monitor
and the spec of its mode.  For an inventory whose lookups are consistent on its listed
monitors (the spec of a listed monitor resolves to that monitor, the spec of its
preferred mode to that mode) and whose selected primary monitor is a listed monitor,
every MonitorConfig of a config returned by `meta_monitor_config_manager_create_linear`
or `meta_monitor_config_manager_create_fallback` resolves to the listed monitor and
preferred mode it was built from, and the assignment of that config never fails with
`MonitorNotFound` or `InvalidMode`: if it fails, it fails with `NoAvailableCrtc`. -/
theorem generated_configs_resolve (config_manager : MetaMonitorConfigManager)
    (hlisted : ∀ m ∈ config_manager.monitor_manager.get_monitors,
      config_manager.monitor_manager.get_monitor_from_spec
          (config_manager.monitor_manager.get_spec m) = some m ∧
        config_manager.monitor_manager.get_mode_from_spec m
          (config_manager.monitor_manager.mode_get_spec
            (config_manager.monitor_manager.get_preferred_mode m)) =
          some (config_manager.monitor_manager.get_preferred_mode m))
    (hprimary : ∀ p, find_primary_monitor config_manager.monitor_manager = some p →
      p ∈ config_manager.monitor_manager.get_monitors) :
    (∀ monitor mode,
        (create_monitor_config config_manager.monitor_manager monitor mode).monitor_spec =
          config_manager.monitor_manager.get_spec monitor ∧
        (create_monitor_config config_manager.monitor_manager monitor mode).mode_spec =
          config_manager.monitor_manager.mode_get_spec mode) ∧
      ∀ config,
        (meta_monitor_config_manager_create_linear config_manager = some config ∨
          meta_monitor_config_manager_create_fallback config_manager = some config) →
        (∀ lmc ∈ config.logical_monitor_configs, ∀ mc ∈ lmc.monitor_configs,
          ∃ m ∈ config_manager.monitor_manager.get_monitors,
            mc = create_monitor_config config_manager.monitor_manager m
              (config_manager.monitor_manager.get_preferred_mode m) ∧
            config_manager.monitor_manager.get_monitor_from_spec mc.monitor_spec = some m ∧
            config_manager.monitor_manager.get_mode_from_spec m mc.mode_spec =
              some (config_manager.monitor_manager.get_preferred_mode m)) ∧
        config_resolves config_manager.monitor_manager config = true ∧
        ∀ e, meta_monitor_config_manager_assign config_manager.monitor_manager config =
            Except.error e →
          ∃ monitor_spec, e = AssignError.NoAvailableCrtc monitor_spec := by
  refine ⟨fun monitor mode => ⟨rfl, rfl⟩, ?_⟩
  intro config hgen
  have hbuilt : ∀ lmc ∈ config.logical_monitor_configs, ∀ mc ∈ lmc.monitor_configs,
      ∃ m ∈ config_manager.monitor_manager.get_monitors,
        mc = create_monitor_config config_manager.monitor_manager m
          (config_manager.monitor_manager.get_preferred_mode m) ∧
        config_manager.monitor_manager.get_monitor_from_spec mc.monitor_spec = some m ∧
        config_manager.monitor_manager.get_mode_from_spec m mc.mode_spec =
          some (config_manager.monitor_manager.get_preferred_mode m) := by
    intro lmc hl mc hmc
    obtain ⟨m, hm, hcfgs⟩ := generated_monitor_configs config_manager config hgen lmc hl
    have hmem : m ∈ config_manager.monitor_manager.get_monitors := by
      rcases hm with hp | hm
      · exact hprimary m hp
      · exact hm
    rw [hcfgs, List.mem_singleton] at hmc
    subst hmc
    exact ⟨m, hmem, rfl, (hlisted m hmem).1, (hlisted m hmem).2⟩
  have hres : config_resolves config_manager.monitor_manager config = true := by
    unfold config_resolves
    rw [List.all_eq_true]
    intro lmc hl
    rw [List.all_eq_true]
    intro mc hmc
    obtain ⟨m, _, _, h1, h2⟩ := hbuilt lmc hl mc hmc
    simp [monitor_config_resolves, h1, h2]
  exact ⟨hbuilt, hres,
    fun e he => assign_error_of_config_resolves _ config hres e he⟩

/-- The inventory of PanelA and ExternalB is consistent, and its linear layout resolves
against it. -/
theorem generated_configs_resolve_witness :
    (∀ m ∈ laptop_and_external_manager.monitor_manager.get_monitors,
        laptop_and_external_manager.monitor_manager.get_monitor_from_spec
            (laptop_and_external_manager.monitor_manager.get_spec m) = some m ∧
          laptop_and_external_manager.monitor_manager.get_mode_from_spec m
            (laptop_and_external_manager.monitor_manager.mode_get_spec
              (laptop_and_external_manager.monitor_manager.get_preferred_mode m)) =
            some (laptop_and_external_manager.monitor_manager.get_preferred_mode m)) ∧
      (∀ p, find_primary_monitor laptop_and_external_manager.monitor_manager = some p →
        p ∈ laptop_and_external_manager.monitor_manager.get_monitors) ∧
      meta_monitor_config_manager_create_linear laptop_and_external_manager =
        some linear_PanelA_ExternalB ∧
      config_resolves laptop_and_external_manager.monitor_manager linear_PanelA_ExternalB =
        true :=
  ⟨by decide,
    fun p hp => Option.some.inj ((by rfl : find_primary_monitor
      laptop_and_external_manager.monitor_manager = some 1).symm.trans hp) ▸ (by decide),
    by rfl,
    ((generated_configs_resolve laptop_and_external_manager (by decide)
      (fun p hp => Option.some.inj ((by rfl : find_primary_monitor
        laptop_and_external_manager.monitor_manager = some 1).symm.trans hp) ▸
        (by decide))).2 linear_PanelA_ExternalB (Or.inl (by rfl))).2.1⟩

end Mutter
